import Mathlib

/-!
# pos-otel: postal code → weather pipeline

A shallow embedding of the two Go services of the repository
(`cmd/service-a/main.go`, the gateway, and `cmd/service-b/main.go`, the
resolution pipeline) together with the few library primitives they rely on
(`regexp`, `float64` arithmetic, `math.Round`).  External collaborators
(`http.Client.Do`, `json.Decoder.Decode`, `os.Getenv`) are parameters of the
model, collected in `Env`; every theorem holds for all their behaviours.
-/

namespace PosOtel

/-! ## `regexp`: the fragment used by `cepRe` -/

namespace Regexp

/-- The operators of `regexp/syntax` that the pattern `^\d{8}$` parses to
(no flags set, so `^` is `OpBeginText` and `$` is `OpEndText`; `\d` is the
ASCII class `[0-9]`; `x{n}` is `OpRepeat` with `Min = Max = n`). -/
inductive Node where
  | beginText
  | endText
  | charClass (lo hi : Char)
  | concat (a b : Node)
  | rep (sub : Node) (n : Nat)
  deriving Repr

/-- A position of the matcher in the input text: the number of runes before
it and the runes after it. -/
abbrev Pos := Nat × List Char

/-- Runs `f` `n` times in sequence, collecting every reachable position. -/
def iter (f : Pos → List Pos) : Nat → Pos → List Pos
  | 0, p => [p]
  | n + 1, p => (f p).flatMap (iter f n)

/-- All positions at which a match of the node starting at the given position
can end. -/
def run : Node → Pos → List Pos
  | .beginText, p => if p.1 = 0 then [p] else []
  | .endText, p => if p.2.isEmpty then [p] else []
  | .charClass _ _, (_, []) => []
  | .charClass lo hi, (k, c :: cs) => if lo ≤ c ∧ c ≤ hi then [(k + 1, cs)] else []
  | .concat a b, p => (run a p).flatMap (run b)
  | .rep sub n, p => iter (run sub) n p

/-- The method `(*Regexp).MatchString`: reports whether the text contains any match of
the pattern, i.e. whether a match starts at some offset of the text. -/
def MatchString (re : Node) (s : String) : Bool :=
  (List.range (s.data.length + 1)).any fun i => !(run re (i, s.data.drop i)).isEmpty

/-- The class `\d`. -/
def perlDigit : Node := .charClass '0' '9'

end Regexp

/-- The variable `var cepRe = regexp.MustCompile("^\d{8}$")`, declared identically in
`cmd/service-a/main.go` and `cmd/service-b/main.go`. -/
def cepRe : Regexp.Node :=
  .concat .beginText (.concat (.rep Regexp.perlDigit 8) .endText)

/-- A rune is an ASCII decimal digit. -/
def isAsciiDigit (c : Char) : Bool := decide ('0' ≤ c ∧ c ≤ '9')

/-! ## `float64`

IEEE 754 binary64 as used by Go: every arithmetic operation returns the
exact result rounded to the nearest representable value, ties to even.
A finite value is kept as sign, integer significand and binary exponent; the
operations compute exactly on integers and round once. -/

/-- A `float64` value.  `fin neg m e` stands for `(-1)^neg * m * 2^e`; the
operations below only produce the canonical form, with `m < 2^53`,
`-1074 ≤ e ≤ 971` and `2^52 ≤ m` unless `e = -1074`. -/
inductive Float64 where
  | nan
  | inf (neg : Bool)
  | fin (neg : Bool) (m : Nat) (e : Int)
  deriving DecidableEq, Repr

namespace Float64

/-- Binary search for the largest `b` below `acc + 2^k` with `2^b ≤ n`
(that is, with `n >>> b` not zero), starting from `acc`. -/
def log2Search (n : Nat) : Nat → Nat → Nat
  | 0, acc => acc
  | k + 1, acc =>
    if n >>> (acc + 2 ^ k) = 0 then log2Search n k acc else log2Search n k (acc + 2 ^ k)

/-- The position of the leading binary digit of a positive `n`:
`2^(ilog2 n) ≤ n < 2^(ilog2 n + 1)`.  The search covers every `n < 2^4096`;
its answer is checked, and `Nat.log2` is the answer beyond that. -/
def ilog2 (n : Nat) : Nat :=
  if 2 ^ log2Search n 12 0 ≤ n ∧ n < 2 ^ (log2Search n 12 0 + 1) then log2Search n 12 0
  else Nat.log2 n

/-- The integer `E` with `2^E ≤ n/d < 2^(E+1)`, for positive `n` and `d`. -/
def floorLog2 (n d : Nat) : Int :=
  let l : Int := (ilog2 n : Int) - (ilog2 d : Int)
  if d * 2 ^ l.toNat ≤ n * 2 ^ (-l).toNat then l else l - 1

/-- The exponent of the last place of the `float64` format at the positive
rational `n/d`: 52 below the leading digit, and never under `-1074`. -/
def ulpExp (n d : Nat) : Int := max (floorLog2 n d - 52) (-1074)

/-- The integer nearest to `N/D`, ties to even. -/
def divRoundEven (N D : Nat) : Nat :=
  if 2 * (N % D) < D then N / D
  else if D < 2 * (N % D) then N / D + 1
  else if (N / D) % 2 = 0 then N / D else N / D + 1

/-- The value `q * 2^e` as a `float64`, for a significand `q ≤ 2^53`: a
significand of `2^53` moves to the next exponent, and an exponent above 971 is
out of the range of the format. -/
def pack (neg : Bool) (q : Nat) (e : Int) : Float64 :=
  if q = 2 ^ 53 then (if 971 < e + 1 then .inf neg else .fin neg (2 ^ 52) (e + 1))
  else if 971 < e then .inf neg else .fin neg q e

/-- The `float64` nearest to the rational `n/d` (with `d > 0`) carrying the
given sign, ties to even; magnitudes too large for the format give an
infinity. -/
def roundEven (neg : Bool) (n d : Nat) : Float64 :=
  if n = 0 then .fin neg 0 (-1074)
  else pack neg (divRoundEven (n * 2 ^ (-ulpExp n d).toNat) (d * 2 ^ (ulpExp n d).toNat))
    (ulpExp n d)

/-- The `float64` nearest to `m * 2^e`. -/
def ofScaled (neg : Bool) (m : Nat) (e : Int) : Float64 :=
  roundEven neg (m * 2 ^ e.toNat) (2 ^ (-e).toNat)

/-- Conversion of a non-negative decimal constant `n/d` of the program text to
`float64`. -/
def lit (n d : Nat) : Float64 := roundEven false n d

/-- Unary minus. -/
def neg : Float64 → Float64
  | nan => nan
  | inf s => inf (!s)
  | fin s m e => fin (!s) m e

/-- The operator `*` on `float64`. -/
def mul : Float64 → Float64 → Float64
  | nan, _ => nan
  | _, nan => nan
  | inf s, inf t => inf (xor s t)
  | inf s, fin t m _ => if m = 0 then nan else inf (xor s t)
  | fin s m _, inf t => if m = 0 then nan else inf (xor s t)
  | fin s m e, fin t n f => ofScaled (xor s t) (m * n) (e + f)

/-- The exact sum of two finite values, rounded once.  An exact zero sum is
`+0` unless both terms are negative. -/
def addFin (s : Bool) (m : Nat) (e : Int) (t : Bool) (n : Nat) (f : Int) : Float64 :=
  let g := min e f
  let a : Int := (if s then -1 else 1) * ((m * 2 ^ (e - g).toNat : Nat) : Int)
  let b : Int := (if t then -1 else 1) * ((n * 2 ^ (f - g).toNat : Nat) : Int)
  if a + b = 0 then fin (s && t) 0 (-1074)
  else ofScaled (decide (a + b < 0)) (a + b).natAbs g

/-- The operator `+` on `float64`. -/
def add : Float64 → Float64 → Float64
  | nan, _ => nan
  | _, nan => nan
  | inf s, inf t => if s = t then inf s else nan
  | inf s, fin _ _ _ => inf s
  | fin _ _ _, inf t => inf t
  | fin s m e, fin t n f => addFin s m e t n f

/-- The operator `/` on `float64`. -/
def div : Float64 → Float64 → Float64
  | nan, _ => nan
  | _, nan => nan
  | inf _, inf _ => nan
  | inf s, fin t _ _ => inf (xor s t)
  | fin s _ _, inf t => fin (xor s t) 0 (-1074)
  | fin s m e, fin t n f =>
    if n = 0 then (if m = 0 then nan else inf (xor s t))
    else roundEven (xor s t) (m * 2 ^ (e - f).toNat) (n * 2 ^ (f - e).toNat)

/-- The expression `x*y + z`.  The Go specification lets the compiler fuse it
into one operation with a single rounding (as it does on arm64, ppc64, s390x
and riscv64); `fused` says whether it did. -/
def mulAdd (fused : Bool) (x y z : Float64) : Float64 :=
  match fused, x, y, z with
  | true, fin s m e, fin t n f, fin u k g => addFin (xor s t) (m * n) (e + f) u k g
  | _, _, _, _ => add (mul x y) z

/-- The function `math.Round`: the nearest integer, rounding half away from zero;
`Round(±0) = ±0`, `Round(±Inf) = ±Inf`, `Round(NaN) = NaN`. -/
def Round : Float64 → Float64
  | nan => nan
  | inf s => inf s
  | fin s m e =>
    if 0 ≤ e then fin s m e else
    let d := 2 ^ (-e).toNat
    roundEven s (if 2 * (m % d) < d then m / d else m / d + 1) 1

/-- The value is neither an infinity nor a NaN. -/
def isFinite : Float64 → Bool
  | fin _ _ _ => true
  | _ => false

/-- The finite values of the format in their one representation: a
significand below `2^53`, an exponent from `-1074` to `971`, and a significand
of at least `2^52` unless the exponent is `-1074`. -/
def isCanonical : Float64 → Bool
  | fin _ m e => decide (m < 2 ^ 53 ∧ -1074 ≤ e ∧ e ≤ 971 ∧ (2 ^ 52 ≤ m ∨ e = -1074))
  | _ => false

/-- The rational number a finite value stands for (`0` for the others). -/
def toRat : Float64 → ℚ
  | fin s m e => (if s then -1 else 1) * (m : ℚ) * (2 : ℚ) ^ e
  | _ => 0

end Float64

/-- The function `func round1(f float64) float64 { return math.Round(f*10) / 10 }`
(`cmd/service-b/main.go`). -/
def round1 (f : Float64) : Float64 :=
  Float64.div (Float64.Round (Float64.mul f (Float64.lit 10 1))) (Float64.lit 10 1)

/-! ## Values exchanged with the outside world -/

/-- An argument of a `fmt.Errorf` format. -/
inductive FmtArg where
  | int (n : Int)
  | str (s : String)
  deriving DecidableEq, Repr

/-- The `error` values the two services handle. -/
inductive GoError where
  /-- The sentinel `var errNotFound = errors.New("not found")`. -/
  | errNotFound
  /-- An error returned by `(*http.Client).Do`. -/
  | clientDo (msg : String)
  /-- An error returned by `(*json.Decoder).Decode`. -/
  | jsonDecode (msg : String)
  /-- The result of `fmt.Errorf(format, args...)`. -/
  | errorf (format : String) (args : List FmtArg)
  deriving DecidableEq, Repr

/-- The function `errors.Is(err, target)`; none of the errors above wraps another one. -/
def errorsIs (err target : GoError) : Bool := decide (err = target)

/-- A `url.URL` value built field by field, `Query` being the `url.Values`
set on it. -/
structure URL where
  Scheme : String
  Host : String
  Path : String
  Query : List (String × String)
  deriving DecidableEq, Repr

/-- The address of an outbound request: a `url.URL` rendered by `String()`, or
a string handed to `http.NewRequestWithContext` as it is. -/
inductive Target where
  | built (u : URL)
  | literal (s : String)
  deriving DecidableEq, Repr

/-- An outbound `*http.Request`. -/
structure HttpRequest where
  Method : String
  URL : Target
  Header : List (String × String)
  Body : String
  deriving DecidableEq, Repr

/-- An `*http.Response` received from an outbound call: status code and the
bytes of the body. -/
structure HttpResponse where
  StatusCode : Int
  Body : String
  deriving DecidableEq, Repr

/-- The inbound `*http.Request` of a handler: method and the bytes of the
body. -/
structure Request where
  Method : String
  Body : String
  deriving DecidableEq, Repr

/-- The type `type cepRequest struct { CEP string }`, declared identically in both
services. -/
structure cepRequest where
  CEP : String
  deriving DecidableEq, Repr

/-- The type `type viaCEPResp struct { Localidade, UF string; Erro bool }`. -/
structure viaCEPResp where
  Localidade : String
  UF : String
  Erro : Bool
  deriving DecidableEq, Repr

/-- The type `type weatherResp struct { City string; TempC, TempF, TempK float64 }`. -/
structure weatherResp where
  City : String
  TempC : Float64
  TempF : Float64
  TempK : Float64
  deriving DecidableEq, Repr

/-- The values the handlers hand to `json.NewEncoder(w).Encode`. -/
inductive JsonValue where
  /-- The map `map[string]string{"message": m}`. -/
  | message (m : String)
  | weather (r : weatherResp)
  deriving DecidableEq, Repr

/-- What a handler writes as the body of its response. -/
inductive Body where
  /-- The encoding of a value by `json.NewEncoder(w).Encode`. -/
  | json (v : JsonValue)
  /-- The line written by `http.Error`. -/
  | text (s : String)
  /-- The bytes copied by `io.Copy(w, resp.Body)`. -/
  | bytes (b : String)
  /-- Nothing, the handler having stopped before it wrote a body. -/
  | unwritten
  deriving DecidableEq, Repr

/-- The state of the `http.ResponseWriter` when a handler returns: the
headers set, the status code of the response sent (`0` when the handler stops
before any `WriteHeader` takes effect, and no response is sent) and the body
written. -/
structure ResponseWriter where
  Header : List (String × String)
  StatusCode : Int
  Body : Body
  deriving DecidableEq, Repr

/-- What a handler or a resolver does besides computing its result, in the
order it happens: operations on the span it started (named by the span) and
outbound network calls. -/
inductive Event where
  /-- The call `tracer.Start(ctx, name)`. -/
  | spanStart (name : String)
  /-- The call `span.SetAttributes(...)`. -/
  | setAttributes (span : String) (attrs : List (String × String))
  /-- The call `span.RecordError(err)`. -/
  | recordError (span : String) (err : GoError)
  /-- The call `span.End()`. -/
  | spanEnd (span : String)
  /-- The call `client.Do(req)`. -/
  | clientDo (req : HttpRequest)
  /-- An informational response (status 1xx) sent ahead of the final one. -/
  | informational (code : Int)
  /-- A run-time panic with the given message; the deferred calls still run,
  the server recovers and closes the connection without a response. -/
  | goPanic (format : String) (args : List FmtArg)
  deriving DecidableEq, Repr

/-- The external collaborators of the services. -/
structure Env where
  /-- The function `os.Getenv`: the empty string for an unset variable. -/
  Getenv : String → String
  /-- The outcome of `client.Do(req)`: an error message or a response.  A
  handler sends each request at most once, so the outcome is a function of the
  request. -/
  clientDo : HttpRequest → Except String HttpResponse
  /-- The outcome of `json.NewDecoder(r.Body).Decode(&req)` on an inbound body. -/
  decodeCepRequest : String → Except String cepRequest
  /-- The outcome of decoding a geocoder body into a `viaCEPResp`. -/
  decodeViaCEP : String → Except String viaCEPResp
  /-- The outcome of decoding a weather body, giving `parsed.Current.TempC`. -/
  decodeWeather : String → Except String Float64
  /-- The bytes `json.Marshal(req)` gives. -/
  marshalCepRequest : cepRequest → String
  /-- Whether `http.NewRequestWithContext` accepts the address. -/
  newRequestOk : String → Bool
  /-- Whether the compiler fused `x*y + z` into one operation. -/
  fusedMulAdd : Bool

/-- The outbound network calls of a trace, in order. -/
def outboundRequests (tr : List Event) : List HttpRequest :=
  tr.filterMap fun ev => match ev with
    | .clientDo req => some req
    | _ => none

/-- Number of outbound network calls in a trace. -/
def outboundCalls (tr : List Event) : Nat := (outboundRequests tr).length

/-- Number of spans of the given name started in a trace. -/
def spansStarted (name : String) (tr : List Event) : Nat :=
  tr.count (.spanStart name)

/-- Number of times the span of the given name is ended in a trace. -/
def spansEnded (name : String) (tr : List Event) : Nat :=
  tr.count (.spanEnd name)

/-- Whether a trace holds a run-time panic. -/
def panicked (tr : List Event) : Bool :=
  tr.any fun ev => match ev with
    | .goPanic _ _ => true
    | _ => false

/-- Whether an error is recorded on the span of the given name in a trace. -/
def errorRecorded (name : String) (tr : List Event) : Bool :=
  tr.any fun ev => match ev with
    | .recordError s _ => s == name
    | _ => false

/-- The function `func writeJSON(w http.ResponseWriter, status int, v any)`, declared
identically in both services. -/
def writeJSON (status : Int) (v : JsonValue) : ResponseWriter :=
  { Header := [("Content-Type", "application/json")], StatusCode := status, Body := .json v }

/-- The function `http.Error(w, msg, code)`. -/
def httpError (msg : String) (code : Int) : ResponseWriter :=
  { Header := [("Content-Type", "text/plain; charset=utf-8"), ("X-Content-Type-Options", "nosniff")],
    StatusCode := code, Body := .text (msg ++ "\n") }

/-! ## `cmd/service-b/main.go`: the resolution pipeline -/

namespace ServiceB

/-- The zero value `float64(0)` returned beside an error. -/
def zero : Float64 := .fin false 0 (-1074)

/-- The request `lookupCity` sends to the geocoder. -/
def viaCEPRequest (cep : String) : HttpRequest :=
  { Method := "GET",
    URL := .built { Scheme := "https", Host := "viacep.com.br",
                    Path := "/ws/" ++ cep ++ "/json/", Query := [] },
    Header := [], Body := "" }

/-- The function `func lookupCity(ctx context.Context, cep string) (string, string, error)`.
The result is the returned triple (`none` for a nil error) and the trace of
the call; the deferred `span.End()` closes every trace. -/
def lookupCity (env : Env) (cep : String) : (String × String × Option GoError) × List Event :=
  let span := "viacep.lookup"
  let req := viaCEPRequest cep
  let tr := [Event.spanStart span, .setAttributes span [("cep", cep)], .clientDo req]
  match env.clientDo req with
  | .error msg =>
    (("", "", some (.clientDo msg)), tr ++ [.recordError span (.clientDo msg), .spanEnd span])
  | .ok res =>
    if res.StatusCode ≠ 200 then
      if res.StatusCode = 400 ∨ res.StatusCode = 404 then
        (("", "", some .errNotFound), tr ++ [.spanEnd span])
      else
        (("", "", some (.errorf "viacep status %d" [.int res.StatusCode])), tr ++ [.spanEnd span])
    else
      match env.decodeViaCEP res.Body with
      | .error msg =>
        (("", "", some (.jsonDecode msg)), tr ++ [.recordError span (.jsonDecode msg), .spanEnd span])
      | .ok v =>
        if v.Erro = true ∨ v.Localidade = "" then
          (("", "", some .errNotFound), tr ++ [.spanEnd span])
        else
          ((v.Localidade, v.UF, none),
            tr ++ [.setAttributes span [("city", v.Localidade), ("uf", v.UF)], .spanEnd span])

/-- The request `lookupTempC` sends to the weather service. -/
def weatherRequest (key city uf : String) : HttpRequest :=
  { Method := "GET",
    URL := .built { Scheme := "http", Host := "api.weatherapi.com", Path := "/v1/current.json",
                    Query := [("key", key), ("q", city ++ "," ++ uf ++ ",BR"), ("aqi", "no")] },
    Header := [], Body := "" }

/-- The function `func lookupTempC(ctx context.Context, city, uf string) (float64, error)`. -/
def lookupTempC (env : Env) (city uf : String) : (Float64 × Option GoError) × List Event :=
  let span := "weatherapi.current"
  let tr := [Event.spanStart span, .setAttributes span [("city", city), ("uf", uf)]]
  let key := env.Getenv "WEATHER_API_KEY"
  if key = "" then
    ((zero, some (.errorf "missing WEATHER_API_KEY" [])), tr ++ [.spanEnd span])
  else
    let req := weatherRequest key city uf
    let tr := tr ++ [.clientDo req]
    match env.clientDo req with
    | .error msg =>
      ((zero, some (.clientDo msg)), tr ++ [.recordError span (.clientDo msg), .spanEnd span])
    | .ok res =>
      if res.StatusCode ≠ 200 then
        ((zero, some (.errorf "weather api status %d" [.int res.StatusCode])),
          tr ++ [.recordError span
                   (.errorf "weather status %d: %s" [.int res.StatusCode, .str res.Body]),
                 .spanEnd span])
      else
        match env.decodeWeather res.Body with
        | .error msg =>
          ((zero, some (.jsonDecode msg)), tr ++ [.recordError span (.jsonDecode msg), .spanEnd span])
        | .ok tempC => ((tempC, none), tr ++ [.spanEnd span])

/-- The function `func handleCEP(w http.ResponseWriter, r *http.Request)` of the pipeline:
the response written and the trace of the resolvers it called. -/
def handleCEP (env : Env) (r : Request) : ResponseWriter × List Event :=
  if r.Method ≠ "POST" then
    (httpError "method not allowed" 405, [])
  else
    match env.decodeCepRequest r.Body with
    | .error _ => (writeJSON 422 (.message "invalid zipcode"), [])
    | .ok req =>
      if !Regexp.MatchString cepRe req.CEP then
        (writeJSON 422 (.message "invalid zipcode"), [])
      else
        match lookupCity env req.CEP with
        | ((_, _, some err), tr) =>
          if errorsIs err .errNotFound then
            (writeJSON 404 (.message "can not find zipcode"), tr)
          else
            (writeJSON 502 (.message "zipcode lookup failed"), tr)
        | ((city, uf, none), tr) =>
          match lookupTempC env city uf with
          | ((_, some _), tr2) =>
            (writeJSON 502 (.message "weather lookup failed"), tr ++ tr2)
          | ((tempC, none), tr2) =>
            (writeJSON 200 (.weather
              { City := city,
                TempC := round1 tempC,
                TempF := round1 (Float64.mulAdd env.fusedMulAdd tempC (Float64.lit 18 10)
                                   (Float64.lit 32 1)),
                TempK := round1 (Float64.add tempC (Float64.lit 273 1)) }), tr ++ tr2)

end ServiceB

/-! ## `cmd/service-a/main.go`: the gateway -/

namespace ServiceA

/-- The address of the pipeline: `SERVICE_B_URL`, or the default when unset. -/
def svcB (env : Env) : String :=
  if env.Getenv "SERVICE_B_URL" = "" then "http://service-b:8081" else env.Getenv "SERVICE_B_URL"

/-- The request the gateway forwards to the pipeline. -/
def forwardRequest (env : Env) (req : cepRequest) : HttpRequest :=
  { Method := "POST", URL := .literal (svcB env ++ "/cep"),
    Header := [("Content-Type", "application/json")], Body := env.marshalCepRequest req }

/-- The check `checkWriteHeaderCode` of `net/http`: `w.WriteHeader(code)`
panics unless the code has three digits. -/
def validWriteHeaderCode (code : Int) : Bool := decide (100 ≤ code ∧ code ≤ 999)

/-- The function `bodyAllowedForStatus` of `net/http`: `w.Write` refuses a
body for the statuses 1xx, 204 and 304. -/
def bodyAllowedForStatus (status : Int) : Bool :=
  if 100 ≤ status ∧ status ≤ 199 then false
  else if status = 204 then false
  else if status = 304 then false
  else true

/-- The last three statements of the gateway handler, on the response
received: `w.Header().Set("Content-Type", "application/json")`,
`w.WriteHeader(resp.StatusCode)` and `io.Copy(w, resp.Body)`.
`WriteHeader` panics on a code that has not three digits; it sends a code
from 100 to 199 other than 101 as an informational response, after which the
final status is the implicit 200; otherwise it sets the status, and `Write`
copies the body where the status allows one. -/
def relay (resp : HttpResponse) : ResponseWriter × List Event :=
  if !validWriteHeaderCode resp.StatusCode then
    ({ Header := [("Content-Type", "application/json")], StatusCode := 0, Body := .unwritten },
      [.goPanic "invalid WriteHeader code %v" [.int resp.StatusCode]])
  else if resp.StatusCode ≤ 199 ∧ resp.StatusCode ≠ 101 then
    ({ Header := [("Content-Type", "application/json")], StatusCode := 200,
       Body := .bytes resp.Body }, [.informational resp.StatusCode])
  else
    ({ Header := [("Content-Type", "application/json")], StatusCode := resp.StatusCode,
       Body := .bytes (if bodyAllowedForStatus resp.StatusCode then resp.Body else "") }, [])

/-- The function `func handleCEP(w http.ResponseWriter, r *http.Request)` of the gateway: the
response written and the trace of the forwarding. -/
def handleCEP (env : Env) (r : Request) : ResponseWriter × List Event :=
  if r.Method ≠ "POST" then
    (httpError "method not allowed" 405, [])
  else
    match env.decodeCepRequest r.Body with
    | .error _ => (writeJSON 422 (.message "invalid zipcode"), [])
    | .ok req =>
      if !Regexp.MatchString cepRe req.CEP then
        (writeJSON 422 (.message "invalid zipcode"), [])
      else if !env.newRequestOk (svcB env ++ "/cep") then
        (writeJSON 500 (.message "forward error"), [])
      else
        let span := "call.service-b"
        let reqOut := forwardRequest env req
        let tr := [Event.spanStart span, .clientDo reqOut]
        match env.clientDo reqOut with
        | .error _ =>
          (writeJSON 502 (.message "service b unavailable"), tr ++ [.spanEnd span])
        | .ok resp => ((relay resp).1, tr ++ (relay resp).2 ++ [.spanEnd span])

end ServiceA

/-- The events every call of `lookupCity` starts with. -/
def geocodeHead (cep : String) : List Event :=
  [.spanStart "viacep.lookup", .setAttributes "viacep.lookup" [("cep", cep)],
    .clientDo (ServiceB.viaCEPRequest cep)]

/-- The events every call of `lookupTempC` starts with. -/
def weatherHead (city uf : String) : List Event :=
  [.spanStart "weatherapi.current", .setAttributes "weatherapi.current" [("city", city), ("uf", uf)]]

/-! ## Concrete worlds -/

namespace Scenario

/-- A decoder of inbound bodies that knows the three bodies used below. -/
def decodeCep (body : String) : Except String cepRequest :=
  if body = "\x7b\"cep\":\"01001000\"\x7d" then .ok { CEP := "01001000" }
  else if body = "\x7b\"cep\":\"00000000\"\x7d" then .ok { CEP := "00000000" }
  else if body = "\x7b\"cep\":\"abc\"\x7d" then .ok { CEP := "abc" }
  else .error "invalid character"

/-- A decoder of geocoder bodies: an `erro` payload, or São Paulo. -/
def decodeGeo (body : String) : Except String viaCEPResp :=
  if body = "\x7b\"erro\":true\x7d" then .ok { Localidade := "", UF := "", Erro := true }
  else if body = "\x7b\"localidade\":\"São Paulo\",\"uf\":\"SP\"\x7d" then
    .ok { Localidade := "São Paulo", UF := "SP", Erro := false }
  else .error "invalid character"

/-- A decoder of weather bodies: a reading of 25.0 °C. -/
def decodeTemp (body : String) : Except String Float64 :=
  if body = "\x7b\"current\":\x7b\"temp_c\":25.0\x7d\x7d" then .ok (Float64.lit 25 1)
  else .error "invalid character"

/-- The host an outbound request is addressed to. -/
def hostOf (req : HttpRequest) : String :=
  match req.URL with
  | .built u => u.Host
  | .literal s => s

/-- A world described by the answers of the geocoder, of the weather service
and of the pipeline (as seen from the gateway), and by the weather credential. -/
def world (geo weather pipeline : Except String HttpResponse) (key : String) : Env :=
  { Getenv := fun name => if name = "WEATHER_API_KEY" then key else "",
    clientDo := fun req =>
      if hostOf req = "viacep.com.br" then geo
      else if hostOf req = "api.weatherapi.com" then weather
      else pipeline,
    decodeCepRequest := decodeCep,
    decodeViaCEP := decodeGeo,
    decodeWeather := decodeTemp,
    marshalCepRequest := fun req => "\x7b\"cep\":\"" ++ req.CEP ++ "\"\x7d",
    newRequestOk := fun _ => true,
    fusedMulAdd := false }

/-- The body the pipeline answers for São Paulo at 25.0 °C. -/
def saoPauloBody : String :=
  "\x7b\"city\":\"São Paulo\",\"temp_C\":25.0,\"temp_F\":77.0,\"temp_K\":298.0\x7d"

/-- The geocoder knows the postal code, the weather service reports 25.0 °C. -/
def saoPaulo : Env :=
  world (.ok { StatusCode := 200, Body := "\x7b\"localidade\":\"São Paulo\",\"uf\":\"SP\"\x7d" })
    (.ok { StatusCode := 200, Body := "\x7b\"current\":\x7b\"temp_c\":25.0\x7d\x7d" })
    (.ok { StatusCode := 200, Body := saoPauloBody }) "secret"

/-- The geocoder reports that the postal code does not exist. -/
def unknownCep : Env :=
  world (.ok { StatusCode := 200, Body := "\x7b\"erro\":true\x7d" })
    (.ok { StatusCode := 200, Body := "\x7b\"current\":\x7b\"temp_c\":25.0\x7d\x7d" })
    (.ok { StatusCode := 404, Body := "\x7b\"message\":\"can not find zipcode\"\x7d" }) "secret"

/-- The geocoder answers with a server error. -/
def geocoderDown : Env :=
  world (.ok { StatusCode := 500, Body := "" })
    (.ok { StatusCode := 200, Body := "\x7b\"current\":\x7b\"temp_c\":25.0\x7d\x7d" })
    (.ok { StatusCode := 502, Body := "\x7b\"message\":\"zipcode lookup failed\"\x7d" }) "secret"

/-- The geocoder answers 404 to the lookup. -/
def geocoderMissing : Env :=
  world (.ok { StatusCode := 404, Body := "" })
    (.ok { StatusCode := 200, Body := "\x7b\"current\":\x7b\"temp_c\":25.0\x7d\x7d" })
    (.ok { StatusCode := 404, Body := "\x7b\"message\":\"can not find zipcode\"\x7d" }) "secret"

/-- The pipeline answers the gateway with the status line `HTTP/1.1 099`. -/
def pipelineStatus99 : Env :=
  world (.ok { StatusCode := 200, Body := "\x7b\"localidade\":\"São Paulo\",\"uf\":\"SP\"\x7d" })
    (.ok { StatusCode := 200, Body := "\x7b\"current\":\x7b\"temp_c\":25.0\x7d\x7d" })
    (.ok { StatusCode := 99, Body := "hi" }) "secret"

/-- The pipeline answers the gateway with 404 and its message. -/
def pipelineNotFound : Env :=
  world (.ok { StatusCode := 200, Body := "\x7b\"erro\":true\x7d" })
    (.ok { StatusCode := 200, Body := "\x7b\"current\":\x7b\"temp_c\":25.0\x7d\x7d" })
    (.ok { StatusCode := 404, Body := "\x7b\"message\":\"can not find zipcode\"\x7d" }) "secret"

/-- The weather credential is not set. -/
def noCredential : Env :=
  world (.ok { StatusCode := 200, Body := "\x7b\"localidade\":\"São Paulo\",\"uf\":\"SP\"\x7d" })
    (.ok { StatusCode := 200, Body := "\x7b\"current\":\x7b\"temp_c\":25.0\x7d\x7d" })
    (.ok { StatusCode := 502, Body := "\x7b\"message\":\"weather lookup failed\"\x7d" }) ""

/-- A POST request carrying the given cep. -/
def post (cep : String) : Request :=
  { Method := "POST", Body := "\x7b\"cep\":\"" ++ cep ++ "\"\x7d" }

end Scenario

/-! ## The input validator -/

/-- The class `\d` on an empty rest. -/
theorem run_perlDigit_nil (k : Nat) : Regexp.run Regexp.perlDigit (k, []) = [] := rfl

/-- The class `\d` consumes one ASCII digit. -/
theorem run_perlDigit_cons (k : Nat) (c : Char) (cs : List Char) :
    Regexp.run Regexp.perlDigit (k, c :: cs) = if isAsciiDigit c = true then [(k + 1, cs)] else [] := by
  simp [Regexp.perlDigit, Regexp.run, isAsciiDigit]

/-- A run of `n` digit classes consumes exactly `n` leading ASCII digits. -/
theorem iter_perlDigit (n k : Nat) (cs : List Char) :
    Regexp.iter (Regexp.run Regexp.perlDigit) n (k, cs) =
      if n ≤ cs.length ∧ (cs.take n).all isAsciiDigit = true then [(k + n, cs.drop n)] else [] := by
  induction n generalizing k cs with
  | zero => simp [Regexp.iter]
  | succ n ih =>
    cases cs with
    | nil => simp [Regexp.iter, run_perlDigit_nil]
    | cons c cs =>
      rw [Regexp.iter, run_perlDigit_cons]
      by_cases hd : isAsciiDigit c = true
      · simp [hd, ih, Nat.add_assoc, Nat.add_comm 1 n]
      · simp [hd]

/-- Where a match of `cepRe` can start, and on what text. -/
theorem run_cepRe_ne_nil (i : Nat) (t : List Char) :
    (Regexp.run cepRe (i, t)).isEmpty = false ↔
      i = 0 ∧ t.length = 8 ∧ t.all isAsciiDigit = true := by
  by_cases hi : i = 0
  · subst hi
    have hrun : Regexp.run cepRe (0, t) =
        (Regexp.iter (Regexp.run Regexp.perlDigit) 8 (0, t)).flatMap (Regexp.run .endText) := by
      simp [cepRe, Regexp.run]
    rw [hrun, iter_perlDigit]
    by_cases h8 : 8 ≤ t.length ∧ (t.take 8).all isAsciiDigit = true
    · rw [if_pos h8]
      by_cases hl : t.length = 8
      · have ht : t.take 8 = t := by rw [← hl]; exact List.take_length t
        have hdrop : t.drop 8 = [] := by rw [← hl]; exact List.drop_length t
        rw [ht] at h8
        simp [h8, hl, hdrop, Regexp.run]
      · have hdrop : (t.drop 8).isEmpty = false := by
          cases hd : t.drop 8 with
          | nil =>
            have := List.drop_eq_nil_iff.mp hd
            omega
          | cons a l => rfl
        simp [hl, hdrop, Regexp.run]
        omega
    · rw [if_neg h8]
      have : ¬ (t.length = 8 ∧ t.all isAsciiDigit = true) := by
        rintro ⟨hl, ha⟩
        apply h8
        have ht : t.take 8 = t := by rw [← hl]; exact List.take_length t
        rw [ht]
        exact ⟨by omega, ha⟩
      simp only [List.flatMap_nil, List.isEmpty, true_and]
      constructor
      · intro h; cases h
      · intro h; exact absurd h this
  · simp [cepRe, Regexp.run, hi]

/-- The validator accepts exactly the texts of eight ASCII digits. -/
theorem matchString_cepRe (s : String) :
    Regexp.MatchString cepRe s = true ↔ s.length = 8 ∧ s.data.all isAsciiDigit = true := by
  obtain ⟨l⟩ := s
  show ((List.range (l.length + 1)).any fun i => !(Regexp.run cepRe (i, l.drop i)).isEmpty) = true ↔
    l.length = 8 ∧ l.all isAsciiDigit = true
  rw [List.any_eq_true]
  constructor
  · rintro ⟨i, _, hi⟩
    have hi2 : (Regexp.run cepRe (i, l.drop i)).isEmpty = false := by
      cases h : (Regexp.run cepRe (i, l.drop i)).isEmpty
      · rfl
      · rw [h] at hi; cases hi
    obtain ⟨h0, hl, ha⟩ := (run_cepRe_ne_nil i (l.drop i)).mp hi2
    subst h0
    rw [List.drop_zero] at hl ha
    exact ⟨hl, ha⟩
  · rintro ⟨hl, ha⟩
    refine ⟨0, List.mem_range.mpr (Nat.succ_pos _), ?_⟩
    have h := (run_cepRe_ne_nil 0 (l.drop 0)).mpr ⟨rfl, by rw [List.drop_zero]; exact hl,
      by rw [List.drop_zero]; exact ha⟩
    rw [h]
    rfl

/-! ## The paths of the pipeline handler -/

/-- The pipeline handler on a body that does not decode. -/
theorem pipeline_undecodable (env : Env) (r : Request) (msg : String)
    (hpost : r.Method = "POST") (hdec : env.decodeCepRequest r.Body = .error msg) :
    ServiceB.handleCEP env r = (writeJSON 422 (.message "invalid zipcode"), []) := by
  simp [ServiceB.handleCEP, hpost, hdec]

/-- The pipeline handler on a decoded body whose cep is rejected. -/
theorem pipeline_invalid (env : Env) (r : Request) (req : cepRequest)
    (hpost : r.Method = "POST") (hdec : env.decodeCepRequest r.Body = .ok req)
    (hbad : Regexp.MatchString cepRe req.CEP = false) :
    ServiceB.handleCEP env r = (writeJSON 422 (.message "invalid zipcode"), []) := by
  simp [ServiceB.handleCEP, hpost, hdec, hbad]

/-- The pipeline handler when the geocode resolver returns an error. -/
theorem pipeline_geocode_error (env : Env) (r : Request) (req : cepRequest)
    (city uf : String) (err : GoError) (tr : List Event)
    (hpost : r.Method = "POST") (hdec : env.decodeCepRequest r.Body = .ok req)
    (hok : Regexp.MatchString cepRe req.CEP = true)
    (hgeo : ServiceB.lookupCity env req.CEP = ((city, uf, some err), tr)) :
    ServiceB.handleCEP env r =
      (if err = .errNotFound then writeJSON 404 (.message "can not find zipcode")
       else writeJSON 502 (.message "zipcode lookup failed"), tr) := by
  by_cases he : err = .errNotFound <;>
    simp [ServiceB.handleCEP, hpost, hdec, hok, hgeo, errorsIs, he]

/-- The pipeline handler when the weather resolver returns an error. -/
theorem pipeline_weather_error (env : Env) (r : Request) (req : cepRequest)
    (city uf : String) (tr tr2 : List Event) (t : Float64) (err : GoError)
    (hpost : r.Method = "POST") (hdec : env.decodeCepRequest r.Body = .ok req)
    (hok : Regexp.MatchString cepRe req.CEP = true)
    (hgeo : ServiceB.lookupCity env req.CEP = ((city, uf, none), tr))
    (hw : ServiceB.lookupTempC env city uf = ((t, some err), tr2)) :
    ServiceB.handleCEP env r = (writeJSON 502 (.message "weather lookup failed"), tr ++ tr2) := by
  simp [ServiceB.handleCEP, hpost, hdec, hok, hgeo, hw]

/-- The pipeline handler when both resolvers succeed. -/
theorem pipeline_success (env : Env) (r : Request) (req : cepRequest)
    (city uf : String) (tr tr2 : List Event) (tempC : Float64)
    (hpost : r.Method = "POST") (hdec : env.decodeCepRequest r.Body = .ok req)
    (hok : Regexp.MatchString cepRe req.CEP = true)
    (hgeo : ServiceB.lookupCity env req.CEP = ((city, uf, none), tr))
    (hw : ServiceB.lookupTempC env city uf = ((tempC, none), tr2)) :
    ServiceB.handleCEP env r =
      (writeJSON 200 (.weather
        { City := city,
          TempC := round1 tempC,
          TempF := round1 (Float64.mulAdd env.fusedMulAdd tempC (Float64.lit 18 10)
                             (Float64.lit 32 1)),
          TempK := round1 (Float64.add tempC (Float64.lit 273 1)) }), tr ++ tr2) := by
  simp [ServiceB.handleCEP, hpost, hdec, hok, hgeo, hw]

/-! ## The resolvers -/

/-- The geocode resolver on a transport failure. -/
theorem lookupCity_transport (env : Env) (cep msg : String)
    (hdo : env.clientDo (ServiceB.viaCEPRequest cep) = .error msg) :
    ServiceB.lookupCity env cep =
      (("", "", some (.clientDo msg)),
        geocodeHead cep ++ [.recordError "viacep.lookup" (.clientDo msg), .spanEnd "viacep.lookup"]) := by
  simp [ServiceB.lookupCity, hdo, geocodeHead]

/-- The geocode resolver on a status other than 200. -/
theorem lookupCity_status (env : Env) (cep : String) (res : HttpResponse)
    (hdo : env.clientDo (ServiceB.viaCEPRequest cep) = .ok res) (hs : res.StatusCode ≠ 200) :
    ServiceB.lookupCity env cep =
      (("", "", some (if res.StatusCode = 400 ∨ res.StatusCode = 404 then GoError.errNotFound
          else .errorf "viacep status %d" [.int res.StatusCode])),
        geocodeHead cep ++ [.spanEnd "viacep.lookup"]) := by
  by_cases h4 : res.StatusCode = 400 ∨ res.StatusCode = 404 <;>
    simp [ServiceB.lookupCity, hdo, hs, h4, geocodeHead]

/-- The geocode resolver on a 200 whose body does not decode. -/
theorem lookupCity_undecodable (env : Env) (cep msg : String) (res : HttpResponse)
    (hdo : env.clientDo (ServiceB.viaCEPRequest cep) = .ok res) (hs : res.StatusCode = 200)
    (hdec : env.decodeViaCEP res.Body = .error msg) :
    ServiceB.lookupCity env cep =
      (("", "", some (.jsonDecode msg)),
        geocodeHead cep ++ [.recordError "viacep.lookup" (.jsonDecode msg), .spanEnd "viacep.lookup"]) := by
  simp [ServiceB.lookupCity, hdo, hs, hdec, geocodeHead]

/-- The geocode resolver on a 200 whose payload says not found. -/
theorem lookupCity_payload_not_found (env : Env) (cep : String) (res : HttpResponse)
    (v : viaCEPResp)
    (hdo : env.clientDo (ServiceB.viaCEPRequest cep) = .ok res) (hs : res.StatusCode = 200)
    (hdec : env.decodeViaCEP res.Body = .ok v) (hv : v.Erro = true ∨ v.Localidade = "") :
    ServiceB.lookupCity env cep =
      (("", "", some .errNotFound), geocodeHead cep ++ [.spanEnd "viacep.lookup"]) := by
  simp [ServiceB.lookupCity, hdo, hs, hdec, hv, geocodeHead]

/-- The geocode resolver on a 200 whose payload names a city. -/
theorem lookupCity_found (env : Env) (cep : String) (res : HttpResponse) (v : viaCEPResp)
    (hdo : env.clientDo (ServiceB.viaCEPRequest cep) = .ok res) (hs : res.StatusCode = 200)
    (hdec : env.decodeViaCEP res.Body = .ok v) (hv : ¬ (v.Erro = true ∨ v.Localidade = "")) :
    ServiceB.lookupCity env cep =
      ((v.Localidade, v.UF, none),
        geocodeHead cep ++
          [.setAttributes "viacep.lookup" [("city", v.Localidade), ("uf", v.UF)],
            .spanEnd "viacep.lookup"]) := by
  simp [ServiceB.lookupCity, hdo, hs, hdec, hv, geocodeHead]

/-- The trace of the geocode resolver: one span, started once and ended last,
one outbound call, and no use of the weather span. -/
theorem lookupCity_trace (env : Env) (cep : String) :
    outboundRequests (ServiceB.lookupCity env cep).2 = [ServiceB.viaCEPRequest cep] ∧
    spansStarted "viacep.lookup" (ServiceB.lookupCity env cep).2 = 1 ∧
    spansEnded "viacep.lookup" (ServiceB.lookupCity env cep).2 = 1 ∧
    (ServiceB.lookupCity env cep).2.getLast? = some (.spanEnd "viacep.lookup") ∧
    spansStarted "weatherapi.current" (ServiceB.lookupCity env cep).2 = 0 := by
  cases hdo : env.clientDo (ServiceB.viaCEPRequest cep) with
  | error msg =>
    rw [lookupCity_transport env cep msg hdo]
    simp [geocodeHead, outboundRequests, spansStarted, spansEnded]
  | ok res =>
    by_cases hs : res.StatusCode = 200
    · cases hdec : env.decodeViaCEP res.Body with
      | error msg =>
        rw [lookupCity_undecodable env cep msg res hdo hs hdec]
        simp [geocodeHead, outboundRequests, spansStarted, spansEnded]
      | ok v =>
        by_cases hv : v.Erro = true ∨ v.Localidade = ""
        · rw [lookupCity_payload_not_found env cep res v hdo hs hdec hv]
          simp [geocodeHead, outboundRequests, spansStarted, spansEnded]
        · rw [lookupCity_found env cep res v hdo hs hdec hv]
          simp [geocodeHead, outboundRequests, spansStarted, spansEnded]
    · rw [lookupCity_status env cep res hdo hs]
      simp [geocodeHead, outboundRequests, spansStarted, spansEnded]

/-- The weather resolver without a credential. -/
theorem lookupTempC_no_key (env : Env) (city uf : String)
    (hkey : env.Getenv "WEATHER_API_KEY" = "") :
    ServiceB.lookupTempC env city uf =
      ((ServiceB.zero, some (.errorf "missing WEATHER_API_KEY" [])),
        weatherHead city uf ++ [.spanEnd "weatherapi.current"]) := by
  simp [ServiceB.lookupTempC, hkey, weatherHead]

/-- The weather resolver on a transport failure. -/
theorem lookupTempC_transport (env : Env) (city uf msg : String)
    (hkey : env.Getenv "WEATHER_API_KEY" ≠ "")
    (hdo : env.clientDo (ServiceB.weatherRequest (env.Getenv "WEATHER_API_KEY") city uf) = .error msg) :
    ServiceB.lookupTempC env city uf =
      ((ServiceB.zero, some (.clientDo msg)),
        weatherHead city uf ++
          [.clientDo (ServiceB.weatherRequest (env.Getenv "WEATHER_API_KEY") city uf),
            .recordError "weatherapi.current" (.clientDo msg), .spanEnd "weatherapi.current"]) := by
  simp [ServiceB.lookupTempC, hkey, hdo, weatherHead]

/-- The weather resolver on a status other than 200. -/
theorem lookupTempC_status (env : Env) (city uf : String) (res : HttpResponse)
    (hkey : env.Getenv "WEATHER_API_KEY" ≠ "")
    (hdo : env.clientDo (ServiceB.weatherRequest (env.Getenv "WEATHER_API_KEY") city uf) = .ok res)
    (hs : res.StatusCode ≠ 200) :
    ServiceB.lookupTempC env city uf =
      ((ServiceB.zero, some (.errorf "weather api status %d" [.int res.StatusCode])),
        weatherHead city uf ++
          [.clientDo (ServiceB.weatherRequest (env.Getenv "WEATHER_API_KEY") city uf),
            .recordError "weatherapi.current"
              (.errorf "weather status %d: %s" [.int res.StatusCode, .str res.Body]),
            .spanEnd "weatherapi.current"]) := by
  simp [ServiceB.lookupTempC, hkey, hdo, hs, weatherHead]

/-- The weather resolver on a 200 whose body does not decode. -/
theorem lookupTempC_undecodable (env : Env) (city uf msg : String) (res : HttpResponse)
    (hkey : env.Getenv "WEATHER_API_KEY" ≠ "")
    (hdo : env.clientDo (ServiceB.weatherRequest (env.Getenv "WEATHER_API_KEY") city uf) = .ok res)
    (hs : res.StatusCode = 200) (hdec : env.decodeWeather res.Body = .error msg) :
    ServiceB.lookupTempC env city uf =
      ((ServiceB.zero, some (.jsonDecode msg)),
        weatherHead city uf ++
          [.clientDo (ServiceB.weatherRequest (env.Getenv "WEATHER_API_KEY") city uf),
            .recordError "weatherapi.current" (.jsonDecode msg), .spanEnd "weatherapi.current"]) := by
  simp [ServiceB.lookupTempC, hkey, hdo, hs, hdec, weatherHead]

/-- The weather resolver on a 200 whose body decodes. -/
theorem lookupTempC_found (env : Env) (city uf : String) (res : HttpResponse) (tempC : Float64)
    (hkey : env.Getenv "WEATHER_API_KEY" ≠ "")
    (hdo : env.clientDo (ServiceB.weatherRequest (env.Getenv "WEATHER_API_KEY") city uf) = .ok res)
    (hs : res.StatusCode = 200) (hdec : env.decodeWeather res.Body = .ok tempC) :
    ServiceB.lookupTempC env city uf =
      ((tempC, none),
        weatherHead city uf ++
          [.clientDo (ServiceB.weatherRequest (env.Getenv "WEATHER_API_KEY") city uf),
            .spanEnd "weatherapi.current"]) := by
  simp [ServiceB.lookupTempC, hkey, hdo, hs, hdec, weatherHead]

/-- The trace of the weather resolver: its span is started once and ended
last on every path, and at most one outbound call is made. -/
theorem lookupTempC_trace (env : Env) (city uf : String) :
    spansStarted "weatherapi.current" (ServiceB.lookupTempC env city uf).2 = 1 ∧
    spansEnded "weatherapi.current" (ServiceB.lookupTempC env city uf).2 = 1 ∧
    (ServiceB.lookupTempC env city uf).2.getLast? = some (.spanEnd "weatherapi.current") ∧
    outboundCalls (ServiceB.lookupTempC env city uf).2 ≤ 1 := by
  by_cases hkey : env.Getenv "WEATHER_API_KEY" = ""
  · rw [lookupTempC_no_key env city uf hkey]
    simp [weatherHead, outboundCalls, outboundRequests, spansStarted, spansEnded]
  · cases hdo : env.clientDo (ServiceB.weatherRequest (env.Getenv "WEATHER_API_KEY") city uf) with
    | error msg =>
      rw [lookupTempC_transport env city uf msg hkey hdo]
      simp [weatherHead, outboundCalls, outboundRequests, spansStarted, spansEnded]
    | ok res =>
      by_cases hs : res.StatusCode = 200
      · cases hdec : env.decodeWeather res.Body with
        | error msg =>
          rw [lookupTempC_undecodable env city uf msg res hkey hdo hs hdec]
          simp [weatherHead, outboundCalls, outboundRequests, spansStarted, spansEnded]
        | ok t =>
          rw [lookupTempC_found env city uf res t hkey hdo hs hdec]
          simp [weatherHead, outboundCalls, outboundRequests, spansStarted, spansEnded]
      · rw [lookupTempC_status env city uf res hkey hdo hs]
        simp [weatherHead, outboundCalls, outboundRequests, spansStarted, spansEnded]

/-! ## `float64`: sign symmetry -/

/-- The constant `10` as a `float64`. -/
theorem lit_ten : Float64.lit 10 1 = .fin false 5629499534213120 (-49) := by decide

/-- Rounding commutes with the sign. -/
theorem roundEven_not (s : Bool) (n d : Nat) :
    Float64.roundEven (!s) n d = (Float64.roundEven s n d).neg := by
  unfold Float64.roundEven Float64.pack
  by_cases hn : n = 0
  · simp [hn, Float64.neg]
  · simp only [hn, if_false]
    split <;> split <;> rfl

/-- The function `math.Round` commutes with the sign. -/
theorem Round_neg (x : Float64) : x.neg.Round = x.Round.neg := by
  cases x with
  | nan => rfl
  | inf s => rfl
  | fin s m e =>
    simp only [Float64.neg, Float64.Round]
    by_cases he : 0 ≤ e
    · simp [he, Float64.neg]
    · simp only [he, if_false]
      exact roundEven_not s _ 1

/-- Multiplication by a non-negative finite constant commutes with the sign. -/
theorem mul_neg_left (x : Float64) (m : Nat) (e : Int) :
    x.neg.mul (.fin false m e) = (x.mul (.fin false m e)).neg := by
  cases x with
  | nan => rfl
  | inf s =>
    simp only [Float64.neg, Float64.mul]
    by_cases hm : m = 0 <;> simp [hm, Float64.neg]
  | fin s n f =>
    simp only [Float64.neg, Float64.mul, Float64.ofScaled, Bool.xor_false]
    exact roundEven_not s _ _

/-- Division by a non-negative finite constant commutes with the sign. -/
theorem div_neg_left (x : Float64) (m : Nat) (e : Int) :
    x.neg.div (.fin false m e) = (x.div (.fin false m e)).neg := by
  cases x with
  | nan => rfl
  | inf s => simp [Float64.neg, Float64.div]
  | fin s n f =>
    simp only [Float64.neg, Float64.div, Bool.xor_false]
    by_cases hm : m = 0
    · by_cases hn : n = 0 <;> simp [hm, hn, Float64.neg]
    · simp only [hm, if_false]
      exact roundEven_not s _ _

/-- The function `round1` commutes with the sign, for every `float64`. -/
theorem round1_neg (x : Float64) : round1 x.neg = (round1 x).neg := by
  unfold round1
  rw [lit_ten, mul_neg_left, Round_neg, div_neg_left]

/-! ## `float64`: rounding error -/

/-- The leading binary digit of a positive number. -/
theorem ilog2_spec (n : Nat) (hn : n ≠ 0) :
    2 ^ Float64.ilog2 n ≤ n ∧ n < 2 ^ (Float64.ilog2 n + 1) := by
  unfold Float64.ilog2
  split
  · assumption
  · exact ⟨Nat.log2_self_le hn, Nat.lt_log2_self⟩

/-- A power of two with an integer exponent, split into its two natural
parts. -/
theorem two_zpow_toNat (l : ℤ) : (2 : ℚ) ^ l * 2 ^ (-l).toNat = 2 ^ l.toNat := by
  rcases le_total 0 l with h | h
  · have h1 : (-l).toNat = 0 := by omega
    have h2 : (l.toNat : ℤ) = l := Int.toNat_of_nonneg h
    rw [h1, pow_zero, mul_one, ← zpow_natCast, h2]
  · have h1 : l.toNat = 0 := by omega
    have h2 : ((-l).toNat : ℤ) = -l := Int.toNat_of_nonneg (by omega)
    rw [h1, pow_zero, ← zpow_natCast, h2, ← zpow_add₀ (by norm_num : (2 : ℚ) ≠ 0)]
    simp

/-- The exponent of the leading digit of a positive rational. -/
theorem floorLog2_spec (n d : Nat) (hn : 0 < n) (hd : 0 < d) :
    (2 : ℚ) ^ Float64.floorLog2 n d ≤ (n : ℚ) / d ∧
      (n : ℚ) / d < 2 ^ (Float64.floorLog2 n d + 1) := by
  obtain ⟨ha1, ha2⟩ := ilog2_spec n (Nat.pos_iff_ne_zero.mp hn)
  obtain ⟨hb1, hb2⟩ := ilog2_spec d (Nat.pos_iff_ne_zero.mp hd)
  have hdq : (0 : ℚ) < d := by exact_mod_cast hd
  have two_pos : ∀ z : ℤ, (0 : ℚ) < 2 ^ z := fun z => zpow_pos (by norm_num) z
  have ha1q : (2 : ℚ) ^ (Float64.ilog2 n : ℤ) ≤ n := by
    rw [zpow_natCast]; exact_mod_cast ha1
  have ha2q : (n : ℚ) < 2 ^ ((Float64.ilog2 n : ℤ) + 1) := by
    have : ((Float64.ilog2 n : ℤ) + 1) = ((Float64.ilog2 n + 1 : ℕ) : ℤ) := by push_cast; rfl
    rw [this, zpow_natCast]; exact_mod_cast ha2
  have hb1q : (2 : ℚ) ^ (Float64.ilog2 d : ℤ) ≤ d := by
    rw [zpow_natCast]; exact_mod_cast hb1
  have hb2q : (d : ℚ) < 2 ^ ((Float64.ilog2 d : ℤ) + 1) := by
    have : ((Float64.ilog2 d : ℤ) + 1) = ((Float64.ilog2 d + 1 : ℕ) : ℤ) := by push_cast; rfl
    rw [this, zpow_natCast]; exact_mod_cast hb2
  set a : ℤ := (Float64.ilog2 n : ℤ) with ha
  set b : ℤ := (Float64.ilog2 d : ℤ) with hb
  -- bounds on n/d from the two leading digits
  have hlow : (2 : ℚ) ^ (a - b - 1) < (n : ℚ) / d := by
    rw [lt_div_iff₀ hdq]
    calc (2 : ℚ) ^ (a - b - 1) * d < 2 ^ (a - b - 1) * 2 ^ (b + 1) :=
          mul_lt_mul_of_pos_left hb2q (two_pos _)
      _ = 2 ^ a := by rw [← zpow_add₀ (by norm_num : (2 : ℚ) ≠ 0)]; congr 1; ring
      _ ≤ n := ha1q
  have hhigh : (n : ℚ) / d < 2 ^ (a - b + 1) := by
    rw [div_lt_iff₀ hdq]
    calc (n : ℚ) < 2 ^ (a + 1) := ha2q
      _ = 2 ^ (a - b + 1) * 2 ^ b := by
          rw [← zpow_add₀ (by norm_num : (2 : ℚ) ≠ 0)]; congr 1; ring
      _ ≤ 2 ^ (a - b + 1) * d := mul_le_mul_of_nonneg_left hb1q (two_pos _).le
  unfold Float64.floorLog2
  simp only
  rw [← ha, ← hb]
  have hsplit := two_zpow_toNat (a - b)
  have hpos : (0 : ℚ) < 2 ^ (-(a - b)).toNat := pow_pos (by norm_num) _
  split
  · next hc =>
    refine ⟨?_, hhigh⟩
    have hcq : (d : ℚ) * 2 ^ (a - b).toNat ≤ n * 2 ^ (-(a - b)).toNat := by exact_mod_cast hc
    rw [← hsplit] at hcq
    rw [le_div_iff₀ hdq]
    have : (2 : ℚ) ^ (a - b) * d * 2 ^ (-(a - b)).toNat ≤ n * 2 ^ (-(a - b)).toNat := by
      calc (2 : ℚ) ^ (a - b) * d * 2 ^ (-(a - b)).toNat
          = d * (2 ^ (a - b) * 2 ^ (-(a - b)).toNat) := by ring
        _ ≤ _ := hcq
    exact le_of_mul_le_mul_right this hpos
  · next hc =>
    refine ⟨hlow.le, ?_⟩
    have hcq : (n : ℚ) * 2 ^ (-(a - b)).toNat < d * 2 ^ (a - b).toNat := by
      exact_mod_cast Nat.lt_of_not_le hc
    rw [← hsplit] at hcq
    rw [div_lt_iff₀ hdq]
    have h1 : (a - b - 1 + 1) = a - b := by ring
    rw [h1]
    have : (n : ℚ) * 2 ^ (-(a - b)).toNat < 2 ^ (a - b) * d * 2 ^ (-(a - b)).toNat := by
      calc (n : ℚ) * 2 ^ (-(a - b)).toNat < d * (2 ^ (a - b) * 2 ^ (-(a - b)).toNat) := hcq
        _ = _ := by ring
    exact lt_of_mul_lt_mul_right this hpos.le

/-- The quotient rounded to the nearest integer is within one half of the
exact quotient, and is the floor or the floor plus one. -/
theorem divRoundEven_spec (N D : Nat) (hD : 0 < D) :
    |(Float64.divRoundEven N D : ℚ) - (N : ℚ) / D| ≤ 1 / 2 ∧
      N / D ≤ Float64.divRoundEven N D ∧ Float64.divRoundEven N D ≤ N / D + 1 := by
  have hDq : (0 : ℚ) < D := by exact_mod_cast hD
  have hdm : (N : ℚ) = D * (N / D : ℕ) + (N % D : ℕ) := by exact_mod_cast (Nat.div_add_mod N D).symm
  have hq : (N : ℚ) / D = (N / D : ℕ) + (N % D : ℕ) / D := by
    rw [hdm]; field_simp; ring
  have hr : ((N % D : ℕ) : ℚ) < D := by exact_mod_cast Nat.mod_lt N hD
  have hr0 : (0 : ℚ) ≤ (N % D : ℕ) := by positivity
  have hfrac0 : (0 : ℚ) ≤ ((N % D : ℕ) : ℚ) / D := by positivity
  have hfrac1 : ((N % D : ℕ) : ℚ) / D < 1 := by rw [div_lt_one hDq]; exact hr
  unfold Float64.divRoundEven
  split
  · next h =>
    have hh : (2 : ℚ) * (N % D : ℕ) < D := by exact_mod_cast h
    have : ((N % D : ℕ) : ℚ) / D < 1 / 2 := by rw [div_lt_iff₀ hDq]; linarith
    refine ⟨?_, le_refl _, Nat.le_succ _⟩
    rw [hq, abs_le]; constructor <;> linarith
  · next h =>
    have hh : (D : ℚ) ≤ 2 * (N % D : ℕ) := by exact_mod_cast Nat.le_of_not_lt h
    have h2 : (1 : ℚ) / 2 ≤ ((N % D : ℕ) : ℚ) / D := by rw [le_div_iff₀ hDq]; linarith
    split
    · refine ⟨?_, Nat.le_succ _, le_refl _⟩
      push_cast
      rw [hq, abs_le]; constructor <;> linarith
    · next h' =>
      have hh' : (2 : ℚ) * (N % D : ℕ) ≤ D := by exact_mod_cast Nat.le_of_not_lt h'
      have h3 : ((N % D : ℕ) : ℚ) / D ≤ 1 / 2 := by rw [div_le_iff₀ hDq]; linarith
      split
      · refine ⟨?_, le_refl _, Nat.le_succ _⟩
        rw [hq, abs_le]; constructor <;> linarith
      · refine ⟨?_, Nat.le_succ _, le_refl _⟩
        push_cast
        rw [hq, abs_le]; constructor <;> linarith

/-- Packing a significand inside the exponent range gives a finite value
that stands for `q * 2^e`. -/
theorem pack_spec (s : Bool) (q : Nat) (e : Int) (he : e + 1 ≤ 971) :
    ∃ m e', Float64.pack s q e = .fin s m e' ∧ (m : ℚ) * 2 ^ e' = q * 2 ^ e ∧
      (q ≤ 2 ^ 53 → m < 2 ^ 53) ∧ e ≤ e' ∧ e' ≤ e + 1 := by
  unfold Float64.pack
  by_cases hq : q = 2 ^ 53
  · refine ⟨2 ^ 52, e + 1, ?_, ?_, fun _ => by norm_num, by omega, le_refl _⟩
    · have : ¬ (971 < e + 1) := by omega
      rw [if_pos hq, if_neg this]
    · rw [hq, zpow_add₀ (by norm_num : (2 : ℚ) ≠ 0)]
      push_cast
      ring
  · refine ⟨q, e, ?_, rfl, fun h => lt_of_le_of_ne h hq, le_refl _, by omega⟩
    have : ¬ (971 < e) := by omega
    rw [if_neg hq, if_neg this]

/-- The value of a finite `float64`. -/
theorem toRat_fin (s : Bool) (m : Nat) (e : Int) :
    (Float64.fin s m e).toRat = (if s then -1 else 1) * ((m : ℚ) * 2 ^ e) := by
  simp [Float64.toRat, mul_assoc]


/-- A rational below `2^k` has its leading digit below `k`. -/
theorem floorLog2_lt (n d : Nat) (hn : 0 < n) (hd : 0 < d) (k : ℤ)
    (h : (n : ℚ) / d < 2 ^ k) : Float64.floorLog2 n d < k := by
  have h1 := (floorLog2_spec n d hn hd).1
  exact (zpow_lt_zpow_iff_right₀ (by norm_num : (1 : ℚ) < 2)).mp (lt_of_le_of_lt h1 h)

/-- A rational of at least `2^k` has its leading digit at `k` or above. -/
theorem le_floorLog2 (n d : Nat) (hn : 0 < n) (hd : 0 < d) (k : ℤ)
    (h : (2 : ℚ) ^ k ≤ (n : ℚ) / d) : k ≤ Float64.floorLog2 n d := by
  have h1 := (floorLog2_spec n d hn hd).2
  have := (zpow_lt_zpow_iff_right₀ (by norm_num : (1 : ℚ) < 2)).mp (lt_of_le_of_lt h h1)
  omega

/-- Half a unit in the last place is at most `2^-53` of the value, or
`2^-1075` for the smallest values. -/
theorem half_ulp_le (n d : Nat) (hn : 0 < n) (hd : 0 < d) :
    (2 : ℚ) ^ Float64.ulpExp n d / 2 ≤ 2 ^ (-53 : ℤ) * ((n : ℚ) / d) + 2 ^ (-1075 : ℤ) := by
  have hlo := (floorLog2_spec n d hn hd).1
  have hq : (0 : ℚ) ≤ (n : ℚ) / d := by positivity
  have two_pos : ∀ z : ℤ, (0 : ℚ) < 2 ^ z := fun z => zpow_pos (by norm_num) z
  unfold Float64.ulpExp
  rcases le_total (Float64.floorLog2 n d - 52) (-1074) with h | h
  · rw [max_eq_right h]
    have : (2 : ℚ) ^ (-1074 : ℤ) / 2 = 2 ^ (-1075 : ℤ) := by
      rw [show (-1074 : ℤ) = -1075 + 1 by norm_num, zpow_add₀ (by norm_num : (2 : ℚ) ≠ 0)]
      norm_num
    rw [this]
    have := mul_nonneg (two_pos (-53)).le hq
    linarith
  · rw [max_eq_left h]
    have : (2 : ℚ) ^ (Float64.floorLog2 n d - 52) / 2 =
        2 ^ (-53 : ℤ) * 2 ^ Float64.floorLog2 n d := by
      rw [show Float64.floorLog2 n d - 52 = Float64.floorLog2 n d + (-53) + 1 by ring,
        zpow_add₀ (by norm_num : (2 : ℚ) ≠ 0), zpow_add₀ (by norm_num : (2 : ℚ) ≠ 0)]
      norm_num
      ring
    rw [this]
    have := mul_le_mul_of_nonneg_left hlo (two_pos (-53)).le
    have := (two_pos (-1075)).le
    linarith

/-- Half a unit in the last place is at most `2^-53` of a value of at least
`2^-1022`. -/
theorem half_ulp_le_normal (n d : Nat) (hn : 0 < n) (hd : 0 < d)
    (hnorm : (2 : ℚ) ^ (-1022 : ℤ) ≤ (n : ℚ) / d) :
    (2 : ℚ) ^ Float64.ulpExp n d / 2 ≤ 2 ^ (-53 : ℤ) * ((n : ℚ) / d) := by
  have hlo := (floorLog2_spec n d hn hd).1
  have hE := le_floorLog2 n d hn hd (-1022) hnorm
  have two_pos : ∀ z : ℤ, (0 : ℚ) < 2 ^ z := fun z => zpow_pos (by norm_num) z
  unfold Float64.ulpExp
  rw [max_eq_left (by omega)]
  have : (2 : ℚ) ^ (Float64.floorLog2 n d - 52) / 2 =
      2 ^ (-53 : ℤ) * 2 ^ Float64.floorLog2 n d := by
    rw [show Float64.floorLog2 n d - 52 = Float64.floorLog2 n d + (-53) + 1 by ring,
      zpow_add₀ (by norm_num : (2 : ℚ) ≠ 0), zpow_add₀ (by norm_num : (2 : ℚ) ≠ 0)]
    norm_num
    ring
  rw [this]
  exact mul_le_mul_of_nonneg_left hlo (two_pos (-53)).le

/-- Rounding an integer below `2^53` is exact. -/
theorem roundEven_nat (s : Bool) (n : Nat) (hn : n < 2 ^ 53) :
    ∃ m e', Float64.roundEven s n 1 = .fin s m e' ∧ (m : ℚ) * 2 ^ e' = n := by
  by_cases h0 : n = 0
  · subst h0
    exact ⟨0, -1074, by simp [Float64.roundEven], by simp⟩
  · have hpos : 0 < n := Nat.pos_of_ne_zero h0
    have hlt : Float64.floorLog2 n 1 < 53 := by
      apply floorLog2_lt n 1 hpos Nat.one_pos
      have : (n : ℚ) < 2 ^ (53 : ℕ) := by exact_mod_cast hn
      rw [Nat.cast_one, div_one]
      exact_mod_cast this
    have hu : Float64.ulpExp n 1 ≤ 0 := by unfold Float64.ulpExp; omega
    have hu2 : -1074 ≤ Float64.ulpExp n 1 := by unfold Float64.ulpExp; omega
    set e := Float64.ulpExp n 1 with he
    have hD : 1 * 2 ^ e.toNat = 1 := by
      have : e.toNat = 0 := by omega
      rw [this]; rfl
    have hdr : ∀ N : Nat, Float64.divRoundEven N 1 = N := by
      intro N
      simp [Float64.divRoundEven, Nat.mod_one]
    obtain ⟨m, e', hpack, hval, _, _, _⟩ := pack_spec s (n * 2 ^ (-e).toNat) e (by omega)
    refine ⟨m, e', ?_, ?_⟩
    · unfold Float64.roundEven
      rw [if_neg h0, ← he, hD, hdr]
      exact hpack
    · rw [hval]
      have h1 := two_zpow_toNat e
      have : e.toNat = 0 := by omega
      rw [this, pow_zero] at h1
      push_cast
      rw [mul_assoc, mul_comm ((2 : ℚ) ^ (-e).toNat), h1, mul_one]

/-- The quotient of the two natural parts of a scaled integer. -/
theorem scaled_div (a : Nat) (z : ℤ) :
    ((a * 2 ^ z.toNat : ℕ) : ℚ) / ((2 ^ (-z).toNat : ℕ) : ℚ) = (a : ℚ) * 2 ^ z := by
  have h := two_zpow_toNat z
  have hp : (0 : ℚ) < 2 ^ (-z).toNat := pow_pos (by norm_num) _
  push_cast
  rw [← h]
  field_simp
  ring


/-- The function `math.Round` on a finite value with a significand below
`2^53`: the result stands for a natural number within one half of the
magnitude, the larger one on a tie. -/
theorem Round_spec (s : Bool) (m : Nat) (e : Int) (hm : m < 2 ^ 53) :
    ∃ (k : Nat) (m' : Nat) (e' : Int), (Float64.fin s m e).Round = .fin s m' e' ∧
      (m' : ℚ) * 2 ^ e' = k ∧ |(k : ℚ) - (m : ℚ) * 2 ^ e| ≤ 1 / 2 ∧
      (|(k : ℚ) - (m : ℚ) * 2 ^ e| = 1 / 2 → (m : ℚ) * 2 ^ e < k) := by
  by_cases he : 0 ≤ e
  · refine ⟨m * 2 ^ e.toNat, m, e, by simp [Float64.Round, he], ?_, ?_, ?_⟩
    · push_cast
      rw [← zpow_natCast, Int.toNat_of_nonneg he]
    · have : ((m * 2 ^ e.toNat : ℕ) : ℚ) = (m : ℚ) * 2 ^ e := by
        push_cast
        rw [← zpow_natCast, Int.toNat_of_nonneg he]
      rw [this, sub_self, abs_zero]
      norm_num
    · intro h
      have : ((m * 2 ^ e.toNat : ℕ) : ℚ) = (m : ℚ) * 2 ^ e := by
        push_cast
        rw [← zpow_natCast, Int.toNat_of_nonneg he]
      rw [this, sub_self, abs_zero] at h
      norm_num at h
  · set d := 2 ^ (-e).toNat with hd
    have hd2 : 2 ≤ d := by
      have h1 : 1 ≤ (-e).toNat := by omega
      calc 2 = 2 ^ 1 := rfl
        _ ≤ 2 ^ (-e).toNat := Nat.pow_le_pow_right (by norm_num) h1
    have hdpos : 0 < d := by omega
    have hdq : (0 : ℚ) < d := by exact_mod_cast hdpos
    have hval : (m : ℚ) * 2 ^ e = (m : ℚ) / d := by
      have h := two_zpow_toNat e
      have h0 : e.toNat = 0 := by omega
      rw [h0, pow_zero] at h
      have hp : (0 : ℚ) < 2 ^ (-e).toNat := pow_pos (by norm_num) _
      rw [hd]
      push_cast
      field_simp
      rw [mul_assoc, h, mul_one]
    have hdm : (m : ℚ) = d * (m / d : ℕ) + (m % d : ℕ) := by
      exact_mod_cast (Nat.div_add_mod m d).symm
    have hq : (m : ℚ) / d = (m / d : ℕ) + ((m % d : ℕ) : ℚ) / d := by
      rw [eq_comm, ← sub_eq_zero]
      field_simp
      linarith
    have hr : ((m % d : ℕ) : ℚ) < d := by exact_mod_cast Nat.mod_lt m hdpos
    have hr0 : (0 : ℚ) ≤ (m % d : ℕ) := by positivity
    have hfrac0 : (0 : ℚ) ≤ ((m % d : ℕ) : ℚ) / d := by positivity
    have hfrac1 : ((m % d : ℕ) : ℚ) / d < 1 := by rw [div_lt_one hdq]; exact hr
    have hdiv : m / d < 2 ^ 52 := by
      have : m / d ≤ m / 2 := Nat.div_le_div_left hd2 (by norm_num)
      omega
    by_cases hlt : 2 * (m % d) < d
    · have hk : m / d < 2 ^ 53 := by omega
      obtain ⟨m', e', hr', hv'⟩ := roundEven_nat s (m / d) hk
      have hh : (2 : ℚ) * (m % d : ℕ) < d := by exact_mod_cast hlt
      have hhalf : ((m % d : ℕ) : ℚ) / d < 1 / 2 := by rw [div_lt_iff₀ hdq]; linarith
      refine ⟨m / d, m', e', ?_, hv', ?_, ?_⟩
      · simp only [Float64.Round, he, if_false, ← hd, hlt, if_true]
        exact hr'
      · rw [hval, hq, abs_le]; constructor <;> linarith
      · intro h
        rw [hval, hq] at h
        have : |((m / d : ℕ) : ℚ) - (((m / d : ℕ) : ℚ) + ((m % d : ℕ) : ℚ) / d)| < 1 / 2 := by
          rw [abs_lt]; constructor <;> linarith
        linarith
    · have hk : m / d + 1 < 2 ^ 53 := by omega
      obtain ⟨m', e', hr', hv'⟩ := roundEven_nat s (m / d + 1) hk
      have hh : (d : ℚ) ≤ 2 * (m % d : ℕ) := by exact_mod_cast Nat.le_of_not_lt hlt
      have hhalf : (1 : ℚ) / 2 ≤ ((m % d : ℕ) : ℚ) / d := by rw [le_div_iff₀ hdq]; linarith
      refine ⟨m / d + 1, m', e', ?_, hv', ?_, ?_⟩
      · simp only [Float64.Round, he, if_false, ← hd, hlt]
        exact hr'
      · rw [hval, hq]; push_cast; rw [abs_le]; constructor <;> linarith
      · intro _
        rw [hval, hq]; push_cast; linarith



/-- The value of a finite `float64`, as sign times magnitude. -/
theorem abs_toRat_fin (s : Bool) (m : Nat) (e : Int) :
    |(Float64.fin s m e).toRat| = (m : ℚ) * 2 ^ e := by
  have h0 : (0 : ℚ) ≤ (m : ℚ) * 2 ^ e :=
    mul_nonneg (by positivity) (zpow_pos (by norm_num) e).le
  rw [toRat_fin]
  cases s
  · simpa using abs_of_nonneg h0
  · simpa using abs_of_nonneg h0

/-- The magnitude of a signed magnitude. -/
theorem abs_signed (s : Bool) (a : ℚ) (ha : 0 ≤ a) : |(if s then -1 else 1) * a| = a := by
  cases s
  · simpa using abs_of_nonneg ha
  · simpa using abs_of_nonneg ha

/-- The distance of two signed magnitudes of the same sign. -/
theorem abs_signed_sub (s : Bool) (a b : ℚ) :
    |(if s then -1 else 1) * a - (if s then -1 else 1) * b| = |a - b| := by
  cases s
  · simp
  · simp only [if_true]
    rw [show (-1 : ℚ) * a - -1 * b = -(a - b) by ring, abs_neg]


/-! ## `float64`: correct rounding -/

/-- An integer within one half of a rational is a nearest integer, and
exactly one half away whenever another integer is as near. -/
theorem nearest_int (q : Nat) (τ : ℚ) (hq : |(q : ℚ) - τ| ≤ 1 / 2) (J : ℤ) :
    |(q : ℚ) - τ| ≤ |(J : ℚ) - τ| ∧
      ((J : ℚ) ≠ q → |(J : ℚ) - τ| = |(q : ℚ) - τ| → |(q : ℚ) - τ| = 1 / 2) := by
  by_cases hJ : J = (q : ℤ)
  · subst hJ
    refine ⟨by simp, fun h => absurd (by simp) h⟩
  · have h1 : (1 : ℚ) ≤ |(J : ℚ) - q| := by
      have : (1 : ℤ) ≤ |J - q| := Int.one_le_abs (sub_ne_zero.mpr hJ)
      exact_mod_cast this
    have h2 : |(J : ℚ) - q| ≤ |(J : ℚ) - τ| + |τ - q| := abs_sub_le _ _ _
    have h3 : |τ - (q : ℚ)| = |(q : ℚ) - τ| := abs_sub_comm _ _
    refine ⟨by linarith, fun _ heq => ?_⟩
    apply le_antisymm hq
    linarith

/-- On a tie the rounded quotient is even. -/
theorem divRoundEven_tie (N D : Nat) (hD : 0 < D)
    (htie : |(Float64.divRoundEven N D : ℚ) - (N : ℚ) / D| = 1 / 2) :
    Float64.divRoundEven N D % 2 = 0 := by
  have hDq : (0 : ℚ) < D := by exact_mod_cast hD
  have hdm : (N : ℚ) = D * (N / D : ℕ) + (N % D : ℕ) := by exact_mod_cast (Nat.div_add_mod N D).symm
  have hq : (N : ℚ) / D = (N / D : ℕ) + (N % D : ℕ) / D := by
    rw [hdm]; field_simp; ring
  have hr : ((N % D : ℕ) : ℚ) < D := by exact_mod_cast Nat.mod_lt N hD
  have hr0 : (0 : ℚ) ≤ (N % D : ℕ) := by positivity
  have hfrac0 : (0 : ℚ) ≤ ((N % D : ℕ) : ℚ) / D := by positivity
  have hfrac1 : ((N % D : ℕ) : ℚ) / D < 1 := by rw [div_lt_one hDq]; exact hr
  unfold Float64.divRoundEven at htie ⊢
  split
  · next h =>
    exfalso
    rw [if_pos h] at htie
    have hh : (2 : ℚ) * (N % D : ℕ) < D := by exact_mod_cast h
    have : ((N % D : ℕ) : ℚ) / D < 1 / 2 := by rw [div_lt_iff₀ hDq]; linarith
    have hlt : |((N / D : ℕ) : ℚ) - (N : ℚ) / D| < 1 / 2 := by
      rw [hq, abs_lt]; constructor <;> linarith
    linarith
  · next h =>
    rw [if_neg h] at htie
    have hh : (D : ℚ) ≤ 2 * (N % D : ℕ) := by exact_mod_cast Nat.le_of_not_lt h
    split
    · next h' =>
      exfalso
      rw [if_pos h'] at htie
      have hh' : (D : ℚ) < 2 * (N % D : ℕ) := by exact_mod_cast h'
      have : (1 : ℚ) / 2 < ((N % D : ℕ) : ℚ) / D := by rw [lt_div_iff₀ hDq]; linarith
      have hlt : |((N / D + 1 : ℕ) : ℚ) - (N : ℚ) / D| < 1 / 2 := by
        push_cast
        rw [hq, abs_lt]; constructor <;> linarith
      linarith
    · split
      · next h2 => exact h2
      · next h2 => omega

/-- Packing a significand: out of range, or a finite value that stands for
`q * 2^e` with the same significand, `2^53` moving to `2^52`. -/
theorem pack_cases (s : Bool) (q : Nat) (e : Int) :
    Float64.pack s q e = .inf s ∨
      ∃ m e', Float64.pack s q e = .fin s m e' ∧ (m : ℚ) * 2 ^ e' = q * 2 ^ e ∧
        e ≤ e' ∧ e' ≤ 971 ∧ ((m = q ∧ e' = e ∧ q ≠ 2 ^ 53) ∨ (q = 2 ^ 53 ∧ m = 2 ^ 52)) := by
  unfold Float64.pack
  by_cases hq : q = 2 ^ 53
  · by_cases he : 971 < e + 1
    · left; rw [if_pos hq, if_pos he]
    · right
      refine ⟨2 ^ 52, e + 1, by rw [if_pos hq, if_neg he], ?_, by omega, by omega, Or.inr ⟨hq, rfl⟩⟩
      rw [hq, zpow_add₀ (by norm_num : (2 : ℚ) ≠ 0)]
      push_cast
      ring
  · by_cases he : 971 < e
    · left; rw [if_neg hq, if_pos he]
    · right
      exact ⟨q, e, by rw [if_neg hq, if_neg he], rfl, le_refl _, by omega, Or.inl ⟨rfl, rfl, hq⟩⟩

/-- Rounding a positive rational `n/d`: out of range, or the value of the
format that is nearest to it, the one with the even significand when two are
as near, in its one representation. -/
theorem roundEven_nearest (s : Bool) (n d : Nat) (hn : 0 < n) (hd : 0 < d) :
    Float64.roundEven s n d = .inf s ∨
      ∃ m e', Float64.roundEven s n d = .fin s m e' ∧
        (Float64.fin s m e').isCanonical = true ∧
        |(m : ℚ) * 2 ^ e' - (n : ℚ) / d| ≤ 2 ^ Float64.ulpExp n d / 2 ∧
        (∀ (j : ℤ) (ey : ℤ), |j| < 2 ^ 53 → -1074 ≤ ey →
          |(m : ℚ) * 2 ^ e' - (n : ℚ) / d| ≤ |(j : ℚ) * 2 ^ ey - (n : ℚ) / d| ∧
          ((j : ℚ) * 2 ^ ey ≠ (m : ℚ) * 2 ^ e' →
            |(j : ℚ) * 2 ^ ey - (n : ℚ) / d| = |(m : ℚ) * 2 ^ e' - (n : ℚ) / d| →
            m % 2 = 0)) := by
  have hu0 : -1074 ≤ Float64.ulpExp n d := by unfold Float64.ulpExp; omega
  have hue1 : Float64.floorLog2 n d - 52 ≤ Float64.ulpExp n d := by
    unfold Float64.ulpExp; omega
  have hucase : Float64.ulpExp n d = Float64.floorLog2 n d - 52 ∨ Float64.ulpExp n d = -1074 := by
    unfold Float64.ulpExp; omega
  obtain ⟨hlo, hhi⟩ := floorLog2_spec n d hn hd
  set e := Float64.ulpExp n d with he
  set N := n * 2 ^ (-e).toNat with hN
  set D := d * 2 ^ e.toNat with hD
  have hDpos : 0 < D := Nat.mul_pos hd (pow_pos (by norm_num) _)
  obtain ⟨habs, hfl, hce⟩ := divRoundEven_spec N D hDpos
  have two_pos : ∀ z : ℤ, (0 : ℚ) < 2 ^ z := fun z => zpow_pos (by norm_num) z
  have hdq : (0 : ℚ) < d := by exact_mod_cast hd
  have hND : (N : ℚ) / D = (n : ℚ) / d / 2 ^ e := by
    have h1 := two_zpow_toNat e
    have hp : (0 : ℚ) < 2 ^ (-e).toNat := pow_pos (by norm_num) _
    rw [hN, hD]
    push_cast
    rw [← h1]
    field_simp
    ring
  have ht : (n : ℚ) / d = (N : ℚ) / D * 2 ^ e := by
    rw [hND, div_mul_cancel₀ _ (two_pos e).ne']
  have hlt : (N : ℚ) / D < 2 ^ 53 := by
    rw [hND, div_lt_iff₀ (two_pos e)]
    calc (n : ℚ) / d < 2 ^ (Float64.floorLog2 n d + 1) := hhi
      _ ≤ 2 ^ ((53 : ℤ) + e) := zpow_le_zpow_right₀ (by norm_num) (by omega)
      _ = 2 ^ 53 * 2 ^ e := by
          rw [zpow_add₀ (by norm_num : (2 : ℚ) ≠ 0)]; norm_num
  have hfloor : N / D < 2 ^ 53 := by
    have h1 : ((N / D : ℕ) : ℚ) ≤ (N : ℚ) / D := Nat.cast_div_le
    have h2 : ((N / D : ℕ) : ℚ) < 2 ^ 53 := lt_of_le_of_lt h1 hlt
    exact_mod_cast h2
  have hq53 : Float64.divRoundEven N D ≤ 2 ^ 53 := by omega
  -- in the normal range the quotient is at least `2^52`
  have hnormal : e = Float64.floorLog2 n d - 52 →
      (2 : ℚ) ^ 52 ≤ (N : ℚ) / D ∧ 2 ^ 52 ≤ Float64.divRoundEven N D := by
    intro hen
    have h1 : (2 : ℚ) ^ 52 ≤ (N : ℚ) / D := by
      rw [hND, le_div_iff₀ (two_pos e)]
      calc (2 : ℚ) ^ 52 * 2 ^ e = 2 ^ ((52 : ℤ) + e) := by
            rw [zpow_add₀ (by norm_num : (2 : ℚ) ≠ 0)]; norm_num
        _ = 2 ^ Float64.floorLog2 n d := by congr 1; omega
        _ ≤ (n : ℚ) / d := hlo
    refine ⟨h1, ?_⟩
    have h2 : (2 : ℚ) ^ 52 < ((N / D : ℕ) : ℚ) + 1 := by
      have := Nat.lt_floor_add_one ((N : ℚ) / D)
      rw [Nat.floor_div_eq_div] at this
      linarith
    have h3 : 2 ^ 52 < N / D + 1 := by exact_mod_cast h2
    omega
  rcases pack_cases s (Float64.divRoundEven N D) e with hinf | ⟨m, e', hpack, hval, hle, h971, hm⟩
  · left
    unfold Float64.roundEven
    rw [if_neg (Nat.pos_iff_ne_zero.mp hn), ← he, ← hN, ← hD]
    exact hinf
  · right
    have herr : (m : ℚ) * 2 ^ e' - (n : ℚ) / d =
        ((Float64.divRoundEven N D : ℚ) - (N : ℚ) / D) * 2 ^ e := by
      rw [hval, ht]; ring
    have hmlt : m < 2 ^ 53 := by
      rcases hm with ⟨h1, _, h3⟩ | ⟨_, h2⟩
      · rw [h1]; exact lt_of_le_of_ne hq53 h3
      · rw [h2]; norm_num
    have hmeven : Float64.divRoundEven N D % 2 = 0 → m % 2 = 0 := by
      intro h
      rcases hm with ⟨h1, _, _⟩ | ⟨_, h2⟩
      · rw [h1]; exact h
      · rw [h2]; norm_num
    refine ⟨m, e', ?_, ?_, ?_, ?_⟩
    · unfold Float64.roundEven
      rw [if_neg (Nat.pos_iff_ne_zero.mp hn), ← he, ← hN, ← hD]
      exact hpack
    · simp only [Float64.isCanonical, decide_eq_true_eq]
      refine ⟨hmlt, by omega, h971, ?_⟩
      rcases hucase with hen | hen
      · left
        have h52 := (hnormal hen).2
        rcases hm with ⟨h1, _, _⟩ | ⟨_, h2⟩
        · rw [h1]; exact h52
        · rw [h2]
      · rcases hm with ⟨_, h2, _⟩ | ⟨_, h2⟩
        · right; omega
        · left; rw [h2]
    · rw [herr, abs_mul, abs_of_pos (two_pos e)]
      calc |(Float64.divRoundEven N D : ℚ) - (N : ℚ) / D| * 2 ^ e ≤ 1 / 2 * 2 ^ e :=
            mul_le_mul_of_nonneg_right habs (two_pos e).le
        _ = 2 ^ e / 2 := by ring
    · intro j ey hj hey
      rw [herr, abs_mul, abs_of_pos (two_pos e)]
      by_cases hcmp : e ≤ ey
      · -- the other value lies on the same grid
        have hgrid : (j : ℚ) * 2 ^ ey = ((j * 2 ^ (ey - e).toNat : ℤ) : ℚ) * 2 ^ e := by
          push_cast
          rw [← zpow_natCast, Int.toNat_of_nonneg (by omega), mul_assoc,
            ← zpow_add₀ (by norm_num : (2 : ℚ) ≠ 0)]
          congr 2
          ring
        obtain ⟨hnear, htie⟩ := nearest_int (Float64.divRoundEven N D) ((N : ℚ) / D) habs
          (j * 2 ^ (ey - e).toNat)
        have hother : (j : ℚ) * 2 ^ ey - (n : ℚ) / d =
            (((j * 2 ^ (ey - e).toNat : ℤ) : ℚ) - (N : ℚ) / D) * 2 ^ e := by
          rw [hgrid, ht]; ring
        rw [hother, abs_mul, abs_of_pos (two_pos e)]
        refine ⟨mul_le_mul_of_nonneg_right hnear (two_pos e).le, fun hne heq => ?_⟩
        apply hmeven
        apply divRoundEven_tie N D hDpos
        apply htie
        · intro hJ
          apply hne
          rw [hgrid, hJ, hval]
        · exact mul_right_cancel₀ (two_pos e).ne' heq
      · -- the other value is below the leading digit of the rational
        have hen : e = Float64.floorLog2 n d - 52 := by
          rcases hucase with h | h
          · exact h
          · omega
        have h52 := (hnormal hen).1
        obtain ⟨hnear, _⟩ := nearest_int (Float64.divRoundEven N D) ((N : ℚ) / D) habs
          ((2 : ℤ) ^ 52)
        have hnear' : |(Float64.divRoundEven N D : ℚ) - (N : ℚ) / D| ≤ (N : ℚ) / D - 2 ^ 52 := by
          have hc : (((2 : ℤ) ^ 52 : ℤ) : ℚ) = 2 ^ 52 := by norm_num
          have : |(((2 : ℤ) ^ 52 : ℤ) : ℚ) - (N : ℚ) / D| = (N : ℚ) / D - 2 ^ 52 := by
            rw [hc, abs_sub_comm, abs_of_nonneg (by linarith)]
          rw [this] at hnear
          exact hnear
        have hjq : |(j : ℚ)| < 2 ^ 53 := by
          have : ((|j| : ℤ) : ℚ) < ((2 ^ 53 : ℤ) : ℚ) := by exact_mod_cast hj
          simpa using this
        have hsmall : |(j : ℚ) * 2 ^ ey| < 2 ^ 52 * 2 ^ e := by
          rw [abs_mul, abs_of_pos (two_pos ey)]
          calc |(j : ℚ)| * 2 ^ ey < 2 ^ 53 * 2 ^ ey :=
                mul_lt_mul_of_pos_right hjq (two_pos ey)
            _ ≤ 2 ^ 53 * 2 ^ (e - 1) :=
                mul_le_mul_of_nonneg_left
                  (zpow_le_zpow_right₀ (by norm_num) (by omega)) (by positivity)
            _ = 2 ^ 52 * 2 ^ e := by
                rw [zpow_sub₀ (by norm_num : (2 : ℚ) ≠ 0)]
                norm_num
                ring
        have hfar : ((N : ℚ) / D - 2 ^ 52) * 2 ^ e < |(j : ℚ) * 2 ^ ey - (n : ℚ) / d| := by
          have h1 : (n : ℚ) / d - |(j : ℚ) * 2 ^ ey| ≤ |(j : ℚ) * 2 ^ ey - (n : ℚ) / d| := by
            have := abs_sub_abs_le_abs_sub ((n : ℚ) / d) ((j : ℚ) * 2 ^ ey)
            rw [abs_sub_comm ((n : ℚ) / d)] at this
            have h0 : (0 : ℚ) ≤ (n : ℚ) / d := by positivity
            rw [abs_of_nonneg h0] at this
            exact this
          have h2 : ((N : ℚ) / D - 2 ^ 52) * 2 ^ e = (n : ℚ) / d - 2 ^ 52 * 2 ^ e := by
            rw [ht]; ring
          rw [h2]
          linarith
        have hle' : |(Float64.divRoundEven N D : ℚ) - (N : ℚ) / D| * 2 ^ e ≤
            ((N : ℚ) / D - 2 ^ 52) * 2 ^ e :=
          mul_le_mul_of_nonneg_right hnear' (two_pos e).le
        refine ⟨by linarith, fun _ heq => ?_⟩
        exfalso
        linarith

/-- Rounding a positive rational below `2^1024 - 2^970`, the midpoint between
the largest finite value and `2^1024`, stays in range. -/
theorem roundEven_finite (s : Bool) (n d : Nat) (hn : 0 < n) (hd : 0 < d)
    (hlt : (n : ℚ) / d < 2 ^ (1024 : ℤ) - 2 ^ (970 : ℤ)) :
    Float64.roundEven s n d ≠ .inf s := by
  have two_pos : ∀ z : ℤ, (0 : ℚ) < 2 ^ z := fun z => zpow_pos (by norm_num) z
  have hE : Float64.floorLog2 n d < 1024 := by
    apply floorLog2_lt n d hn hd
    have := two_pos 970
    linarith
  have hue : Float64.ulpExp n d ≤ 971 := by unfold Float64.ulpExp; omega
  set e := Float64.ulpExp n d with he
  set N := n * 2 ^ (-e).toNat with hN
  set D := d * 2 ^ e.toNat with hD
  have hDpos : 0 < D := Nat.mul_pos hd (pow_pos (by norm_num) _)
  obtain ⟨habs, _, _⟩ := divRoundEven_spec N D hDpos
  have hND : (N : ℚ) / D = (n : ℚ) / d / 2 ^ e := by
    have h1 := two_zpow_toNat e
    have hp : (0 : ℚ) < 2 ^ (-e).toNat := pow_pos (by norm_num) _
    rw [hN, hD]
    push_cast
    rw [← h1]
    field_simp
    ring
  have hr : Float64.roundEven s n d = Float64.pack s (Float64.divRoundEven N D) e := by
    unfold Float64.roundEven
    rw [if_neg (Nat.pos_iff_ne_zero.mp hn)]
  rw [hr]
  by_cases hq : Float64.divRoundEven N D = 2 ^ 53
  · have he970 : e ≤ 970 := by
      by_contra hcon
      have he971 : e = 971 := by omega
      have h1 : (N : ℚ) / D < 2 ^ 53 - 1 / 2 := by
        rw [hND, he971, div_lt_iff₀ (two_pos 971)]
        have h2 : ((2 : ℚ) ^ 53 - 1 / 2) * 2 ^ (971 : ℤ) = 2 ^ (1024 : ℤ) - 2 ^ (970 : ℤ) := by
          rw [show (1024 : ℤ) = 53 + 971 by norm_num, show (970 : ℤ) = -1 + 971 by norm_num,
            zpow_add₀ (by norm_num : (2 : ℚ) ≠ 0), zpow_add₀ (by norm_num : (2 : ℚ) ≠ 0)]
          norm_num
        rw [h2]
        exact hlt
      have h3 : ((Float64.divRoundEven N D : ℕ) : ℚ) = 2 ^ 53 := by rw [hq]; norm_num
      rw [h3] at habs
      have := (abs_le.mp habs).2
      linarith
    have hp : Float64.pack s (Float64.divRoundEven N D) e = .fin s (2 ^ 52) (e + 1) := by
      unfold Float64.pack
      rw [if_pos hq, if_neg (by omega)]
    rw [hp]
    intro h
    cases h
  · have hp : Float64.pack s (Float64.divRoundEven N D) e =
        .fin s (Float64.divRoundEven N D) e := by
      unfold Float64.pack
      rw [if_neg hq, if_neg (by omega)]
    rw [hp]
    intro h
    cases h

/-- The product of a non-zero finite value with the constant `10` is the
rounding of ten times the value. -/
theorem mul_ten_eq (s : Bool) (m : Nat) (e : Int) (hm : 0 < m) :
    ∃ n d : ℕ, 0 < n ∧ 0 < d ∧ (n : ℚ) / d = 10 * ((m : ℚ) * 2 ^ e) ∧
      (Float64.fin s m e).mul (.fin false 5629499534213120 (-49)) = Float64.roundEven s n d := by
  refine ⟨m * 5629499534213120 * 2 ^ (e + -49).toNat, 2 ^ (-(e + -49)).toNat,
    by positivity, by positivity, ?_, ?_⟩
  · rw [scaled_div, zpow_add₀ (by norm_num : (2 : ℚ) ≠ 0)]
    push_cast
    have : (2 : ℚ) ^ (-49 : ℤ) = 1 / 562949953421312 := by norm_num [zpow_neg]
    rw [this]
    ring
  · simp only [Float64.mul, Float64.ofScaled, Bool.xor_false]

/-- The quotient of a non-zero finite value by the constant `10` is the
rounding of a tenth of the value. -/
theorem div_ten_eq (s : Bool) (m : Nat) (e : Int) (hm : 0 < m) :
    ∃ n d : ℕ, 0 < n ∧ 0 < d ∧ (n : ℚ) / d = (m : ℚ) * 2 ^ e / 10 ∧
      (Float64.fin s m e).div (.fin false 5629499534213120 (-49)) = Float64.roundEven s n d := by
  refine ⟨m * 2 ^ (e - -49).toNat, 5629499534213120 * 2 ^ (-49 - e).toNat,
    by positivity, by positivity, ?_, ?_⟩
  · have h1 : (-49 - e).toNat = (-(e - -49)).toNat := by congr 1; ring
    have h2 := scaled_div m (e - -49)
    have hp : (0 : ℚ) < ((2 ^ (-(e - -49)).toNat : ℕ) : ℚ) := by positivity
    have h3 : ((m * 2 ^ (e - -49).toNat : ℕ) : ℚ) =
        (m : ℚ) * 2 ^ (e - -49) * ((2 ^ (-(e - -49)).toNat : ℕ) : ℚ) := by
      rw [← h2]; field_simp
    rw [h1, h3]
    have h4 : (2 : ℚ) ^ (e - -49) = 2 ^ e * 562949953421312 := by
      rw [show e - -49 = e + 49 by ring, zpow_add₀ (by norm_num : (2 : ℚ) ≠ 0)]
      norm_num
    rw [h4]
    push_cast
    field_simp
    ring
  · simp only [Float64.div, Bool.xor_false]
    rw [if_neg (by norm_num)]

/-- The product with `10` of a finite value of magnitude below a tenth of
`2^1024 - 2^970` is finite. -/
theorem mul_ten_finite (s : Bool) (m : Nat) (e : Int)
    (hv : 10 * ((m : ℚ) * 2 ^ e) < 2 ^ (1024 : ℤ) - 2 ^ (970 : ℤ)) :
    ((Float64.fin s m e).mul (.fin false 5629499534213120 (-49))).isFinite = true := by
  rcases Nat.eq_zero_or_pos m with h0 | hpos
  · subst h0
    simp [Float64.mul, Float64.ofScaled, Float64.roundEven, Float64.isFinite]
  · obtain ⟨n, d, hn, hd, hnd, hmul⟩ := mul_ten_eq s m e hpos
    rw [hmul]
    have hne := roundEven_finite s n d hn hd (by rw [hnd]; exact hv)
    rcases roundEven_nearest s n d hn hd with hinf | ⟨mp, ep, hr, _⟩
    · exact absurd hinf hne
    · rw [hr]; rfl

/-- The steps of `round1` on a finite value: either the product with `10` is
out of range and so is the result, or the product is finite, `math.Round`
picks a natural number `k` within one half of its magnitude (the larger one on
a tie), and the result is the value of the format nearest to `k/10`, with the
even significand when two values are as near. -/
theorem round1_steps (s : Bool) (m : Nat) (e : Int) :
    ((Float64.fin s m e).mul (Float64.lit 10 1) = .inf s ∧ round1 (.fin s m e) = .inf s) ∨
    ∃ (mp : Nat) (ep : Int) (k : Nat) (mr : Nat) (er : Int),
      (Float64.fin s m e).mul (Float64.lit 10 1) = .fin s mp ep ∧
      round1 (.fin s m e) = .fin s mr er ∧
      (Float64.fin s mr er).isCanonical = true ∧
      |(mp : ℚ) * 2 ^ ep - 10 * ((m : ℚ) * 2 ^ e)| ≤
        2 ^ (-53 : ℤ) * (10 * ((m : ℚ) * 2 ^ e)) + 2 ^ (-1075 : ℤ) ∧
      |(k : ℚ) - (mp : ℚ) * 2 ^ ep| ≤ 1 / 2 ∧
      (|(k : ℚ) - (mp : ℚ) * 2 ^ ep| = 1 / 2 → (mp : ℚ) * 2 ^ ep < k) ∧
      (∀ (j : ℤ) (ey : ℤ), |j| < 2 ^ 53 → -1074 ≤ ey →
        |(mr : ℚ) * 2 ^ er - (k : ℚ) / 10| ≤ |(j : ℚ) * 2 ^ ey - (k : ℚ) / 10| ∧
        ((j : ℚ) * 2 ^ ey ≠ (mr : ℚ) * 2 ^ er →
          |(j : ℚ) * 2 ^ ey - (k : ℚ) / 10| = |(mr : ℚ) * 2 ^ er - (k : ℚ) / 10| →
          mr % 2 = 0)) ∧
      |(mr : ℚ) * 2 ^ er - (k : ℚ) / 10| ≤ 2 ^ (-53 : ℤ) * ((k : ℚ) / 10) := by
  have two_pos : ∀ z : ℤ, (0 : ℚ) < 2 ^ z := fun z => zpow_pos (by norm_num) z
  have hv0 : (0 : ℚ) ≤ (m : ℚ) * 2 ^ e := mul_nonneg (by positivity) (two_pos e).le
  -- the product: out of range, or finite and canonical
  have hmul : (Float64.fin s m e).mul (.fin false 5629499534213120 (-49)) = .inf s ∨
      ∃ mp ep, (Float64.fin s m e).mul (.fin false 5629499534213120 (-49)) = .fin s mp ep ∧
        mp < 2 ^ 53 ∧ ep ≤ 971 ∧
        |(mp : ℚ) * 2 ^ ep - 10 * ((m : ℚ) * 2 ^ e)| ≤
          2 ^ (-53 : ℤ) * (10 * ((m : ℚ) * 2 ^ e)) + 2 ^ (-1075 : ℤ) := by
    rcases Nat.eq_zero_or_pos m with h0 | hpos
    · subst h0
      right
      refine ⟨0, -1074, by simp [Float64.mul, Float64.ofScaled, Float64.roundEven],
        by norm_num, by norm_num, ?_⟩
      have := (two_pos (-1075)).le
      simpa using this
    · obtain ⟨n, d, hn, hd, hnd, hmul⟩ := mul_ten_eq s m e hpos
      rw [hmul]
      rcases roundEven_nearest s n d hn hd with hinf | ⟨mp, ep, hr, hcan, herr, _⟩
      · exact Or.inl hinf
      · right
        simp only [Float64.isCanonical, decide_eq_true_eq] at hcan
        refine ⟨mp, ep, hr, hcan.1, hcan.2.2.1, ?_⟩
        rw [← hnd]
        exact le_trans herr (half_ulp_le n d hn hd)
  rcases hmul with hinf | ⟨mp, ep, hp, hmp, hep, hperr⟩
  · left
    refine ⟨by rw [lit_ten]; exact hinf, ?_⟩
    unfold round1
    rw [lit_ten, hinf]
    simp [Float64.Round, Float64.div]
  · right
    obtain ⟨k, m', e', hround, hval, hk, htie⟩ := Round_spec s mp ep hmp
    have hP0 : (0 : ℚ) ≤ (mp : ℚ) * 2 ^ ep := mul_nonneg (by positivity) (two_pos ep).le
    -- the magnitude of the product is below `2^1024`
    have hPlt : (mp : ℚ) * 2 ^ ep < 2 ^ (1024 : ℤ) := by
      have h1 : (mp : ℚ) < 2 ^ 53 := by exact_mod_cast hmp
      calc (mp : ℚ) * 2 ^ ep < 2 ^ 53 * 2 ^ ep := mul_lt_mul_of_pos_right h1 (two_pos ep)
        _ ≤ 2 ^ 53 * 2 ^ (971 : ℤ) :=
            mul_le_mul_of_nonneg_left (zpow_le_zpow_right₀ (by norm_num) hep) (by positivity)
        _ = 2 ^ (1024 : ℤ) := by
            rw [show (1024 : ℤ) = 53 + 971 by norm_num, zpow_add₀ (by norm_num : (2 : ℚ) ≠ 0)]
            norm_num
    have hdiv : ∃ mr er, (Float64.fin s m' e').div (.fin false 5629499534213120 (-49)) =
          .fin s mr er ∧ (Float64.fin s mr er).isCanonical = true ∧
        (∀ (j : ℤ) (ey : ℤ), |j| < 2 ^ 53 → -1074 ≤ ey →
          |(mr : ℚ) * 2 ^ er - (k : ℚ) / 10| ≤ |(j : ℚ) * 2 ^ ey - (k : ℚ) / 10| ∧
          ((j : ℚ) * 2 ^ ey ≠ (mr : ℚ) * 2 ^ er →
            |(j : ℚ) * 2 ^ ey - (k : ℚ) / 10| = |(mr : ℚ) * 2 ^ er - (k : ℚ) / 10| →
            mr % 2 = 0)) ∧
        |(mr : ℚ) * 2 ^ er - (k : ℚ) / 10| ≤ 2 ^ (-53 : ℤ) * ((k : ℚ) / 10) := by
      rcases Nat.eq_zero_or_pos k with h0 | hpos
      · subst h0
        have hm' : m' = 0 := by
          have h1 : (m' : ℚ) * 2 ^ e' = 0 := by simpa using hval
          rcases mul_eq_zero.mp h1 with h | h
          · exact_mod_cast h
          · exact absurd h (two_pos e').ne'
        subst hm'
        refine ⟨0, -1074, by simp [Float64.div, Float64.roundEven],
          by simp [Float64.isCanonical], ?_, by simp⟩
        intro j ey _ _
        refine ⟨by simp, fun _ _ => rfl⟩
      · have hm'pos : 0 < m' := by
          rcases Nat.eq_zero_or_pos m' with h | h
          · rw [h] at hval
            have hk0 : (k : ℚ) = 0 := by rw [← hval]; simp
            have : k = 0 := by exact_mod_cast hk0
            omega
          · exact h
        obtain ⟨n, d, hn, hd, hnd, hdv⟩ := div_ten_eq s m' e' hm'pos
        rw [hval] at hnd
        have hkq : (1 : ℚ) ≤ k := by exact_mod_cast hpos
        have hklt : (n : ℚ) / d < 2 ^ (1024 : ℤ) - 2 ^ (970 : ℤ) := by
          rw [hnd]
          have h1 := (abs_le.mp hk).2
          have h2 : (2 : ℚ) ^ (1024 : ℤ) = 18014398509481984 * 2 ^ (970 : ℤ) := by
            rw [show (1024 : ℤ) = 54 + 970 by norm_num, zpow_add₀ (by norm_num : (2 : ℚ) ≠ 0)]
            norm_num
          have h3 : (1 : ℚ) ≤ 2 ^ (970 : ℤ) := one_le_zpow₀ (by norm_num) (by norm_num)
          rw [h2] at hPlt ⊢
          linarith
        have hne := roundEven_finite s n d hn hd hklt
        have hnorm : (2 : ℚ) ^ (-1022 : ℤ) ≤ (n : ℚ) / d := by
          rw [hnd]
          have h1 : (2 : ℚ) ^ (-1022 : ℤ) ≤ 2 ^ (-4 : ℤ) :=
            zpow_le_zpow_right₀ (by norm_num) (by norm_num)
          have h2 : (2 : ℚ) ^ (-4 : ℤ) = 1 / 16 := by norm_num [zpow_neg]
          rw [h2] at h1
          linarith
        rcases roundEven_nearest s n d hn hd with hinf | ⟨mr, er, hr, hcan, herr, hnear⟩
        · exact absurd hinf hne
        · refine ⟨mr, er, by rw [hdv]; exact hr, hcan, ?_, ?_⟩
          · rw [← hnd]; exact hnear
          · rw [← hnd]
            exact le_trans herr (half_ulp_le_normal n d hn hd hnorm)
    obtain ⟨mr, er, hd, hcan, hnear, hderr⟩ := hdiv
    refine ⟨mp, ep, k, mr, er, ?_, ?_, hcan, hperr, hk, htie, hnear, hderr⟩
    · rw [lit_ten]; exact hp
    · unfold round1
      rw [lit_ten, hp, hround, hd]

/-- A finite value seen from the side of a sign: an integer significand of
the same magnitude. -/
theorem signed_significand (s t : Bool) (my : Nat) (ey : Int) :
    ∃ j : ℤ, |j| = (my : ℤ) ∧
      (j : ℚ) * 2 ^ ey = (if s then -1 else 1) * (Float64.fin t my ey).toRat ∧
      (Float64.fin t my ey).toRat = (if s then -1 else 1) * ((j : ℚ) * 2 ^ ey) := by
  cases s <;> cases t
  · exact ⟨my, by simp, by simp [toRat_fin], by simp [toRat_fin]⟩
  · exact ⟨-my, by simp, by simp [toRat_fin], by simp [toRat_fin]⟩
  · exact ⟨-my, by simp, by simp [toRat_fin], by simp [toRat_fin]⟩
  · exact ⟨my, by simp, by simp [toRat_fin], by simp [toRat_fin]⟩

/-- What `round1` returns on a finite value whose product with `10` is finite:
there is an integer `k`, nearest to that product and the one farther from
zero on a tie, such that the result is the value of the format nearest to
`k/10`, the one with the even significand when two are as near. -/
theorem round1_exact (s : Bool) (m : Nat) (e : Int)
    (hfin : ((Float64.fin s m e).mul (Float64.lit 10 1)).isFinite = true) :
    ∃ (k : ℤ) (mr : Nat) (er : Int), round1 (.fin s m e) = .fin s mr er ∧
      (round1 (.fin s m e)).isCanonical = true ∧
      |(k : ℚ) - ((Float64.fin s m e).mul (Float64.lit 10 1)).toRat| ≤ 1 / 2 ∧
      (|(k : ℚ) - ((Float64.fin s m e).mul (Float64.lit 10 1)).toRat| = 1 / 2 →
        |((Float64.fin s m e).mul (Float64.lit 10 1)).toRat| < |(k : ℚ)|) ∧
      (∀ y : Float64, y.isCanonical = true →
        |(round1 (.fin s m e)).toRat - (k : ℚ) / 10| ≤ |y.toRat - (k : ℚ) / 10|) ∧
      (∀ y : Float64, y.isCanonical = true → y.toRat ≠ (round1 (.fin s m e)).toRat →
        |y.toRat - (k : ℚ) / 10| = |(round1 (.fin s m e)).toRat - (k : ℚ) / 10| →
        mr % 2 = 0) ∧
      |(round1 (.fin s m e)).toRat - (k : ℚ) / 10| ≤ 2 ^ (-53 : ℤ) * |(k : ℚ) / 10| ∧
      |((Float64.fin s m e).mul (Float64.lit 10 1)).toRat - 10 * (Float64.fin s m e).toRat| ≤
        2 ^ (-53 : ℤ) * |10 * (Float64.fin s m e).toRat| + 2 ^ (-1075 : ℤ) ∧
      |(round1 (.fin s m e)).toRat - (Float64.fin s m e).toRat| ≤
        1 / 20 + 2 ^ (-51 : ℤ) * (|(Float64.fin s m e).toRat| + 1) := by
  rcases round1_steps s m e with ⟨hinf, _⟩ | ⟨mp, ep, k, mr, er, hp, hr, hcan, hperr, hk, htie, hnear, hderr⟩
  · rw [hinf] at hfin
    cases hfin
  have two_pos : ∀ z : ℤ, (0 : ℚ) < 2 ^ z := fun z => zpow_pos (by norm_num) z
  have hv0 : (0 : ℚ) ≤ (m : ℚ) * 2 ^ e := mul_nonneg (by positivity) (two_pos e).le
  have hP0 : (0 : ℚ) ≤ (mp : ℚ) * 2 ^ ep := mul_nonneg (by positivity) (two_pos ep).le
  have hk0 : (0 : ℚ) ≤ (k : ℚ) := by positivity
  have hkc : (((if s then -1 else 1) * (k : ℤ) : ℤ) : ℚ) = (if s then -1 else 1) * (k : ℚ) := by
    cases s <;> simp
  have hkc10 : (((if s then -1 else 1) * (k : ℤ) : ℤ) : ℚ) / 10 =
      (if s then -1 else 1) * ((k : ℚ) / 10) := by
    rw [hkc]; ring
  refine ⟨(if s then -1 else 1) * (k : ℤ), mr, er, hr, by rw [hr]; exact hcan, ?_, ?_, ?_, ?_,
    ?_, ?_, ?_⟩
  · rw [hp, toRat_fin, hkc, abs_signed_sub]
    exact hk
  · rw [hp, toRat_fin, hkc, abs_signed_sub, abs_signed s _ hP0, abs_signed s _ hk0]
    exact htie
  · intro y hy
    cases y with
    | nan => cases hy
    | inf t => cases hy
    | fin t my ey =>
      simp only [Float64.isCanonical, decide_eq_true_eq] at hy
      obtain ⟨j, hj, _, hj2⟩ := signed_significand s t my ey
      have hjlt : |j| < 2 ^ 53 := by rw [hj]; exact_mod_cast hy.1
      rw [hr, toRat_fin s mr er, hkc10, abs_signed_sub, hj2, abs_signed_sub]
      exact (hnear j ey hjlt hy.2.1).1
  · intro y hy hne heq
    cases y with
    | nan => cases hy
    | inf t => cases hy
    | fin t my ey =>
      simp only [Float64.isCanonical, decide_eq_true_eq] at hy
      obtain ⟨j, hj, _, hj2⟩ := signed_significand s t my ey
      have hjlt : |j| < 2 ^ 53 := by rw [hj]; exact_mod_cast hy.1
      rw [hr, toRat_fin s mr er, hkc10, abs_signed_sub, hj2, abs_signed_sub] at heq
      rw [hr, toRat_fin s mr er, hj2] at hne
      refine (hnear j ey hjlt hy.2.1).2 (fun h => hne (by rw [h])) heq
  · rw [hr, toRat_fin, hkc10, abs_signed_sub,
      abs_signed s _ (div_nonneg hk0 (by norm_num))]
    exact hderr
  · rw [hp, toRat_fin, toRat_fin]
    have h1 : (10 : ℚ) * ((if s then -1 else 1) * ((m : ℚ) * 2 ^ e)) =
        (if s then -1 else 1) * (10 * ((m : ℚ) * 2 ^ e)) := by ring
    rw [h1, abs_signed_sub, abs_signed s _ (by linarith)]
    exact hperr
  · rw [hr, toRat_fin, toRat_fin, abs_signed_sub, abs_signed s _ hv0]
    have hu : (2 : ℚ) ^ (-53 : ℤ) = 1 / 9007199254740992 := by norm_num [zpow_neg]
    have hu2 : (2 : ℚ) ^ (-51 : ℤ) = 4 / 9007199254740992 := by norm_num [zpow_neg]
    have hw : (2 : ℚ) ^ (-1075 : ℤ) ≤ 1 / 9007199254740992 := by
      rw [← hu]
      exact zpow_le_zpow_right₀ (by norm_num) (by norm_num)
    have hw0 := (two_pos (-1075)).le
    rw [hu] at hperr hderr
    rw [hu2]
    obtain ⟨a1, a2⟩ := abs_le.mp hperr
    obtain ⟨b1, b2⟩ := abs_le.mp hk
    obtain ⟨c1, c2⟩ := abs_le.mp hderr
    rw [abs_le]
    constructor <;> linarith

/-- A finite value whose product with `10` is out of range is rounded to the
infinity of its sign. -/
theorem round1_overflows (s : Bool) (m : Nat) (e : Int)
    (hinf : ((Float64.fin s m e).mul (Float64.lit 10 1)).isFinite = false) :
    round1 (.fin s m e) = .inf s := by
  rcases round1_steps s m e with ⟨_, h⟩ | ⟨mp, ep, _, _, _, hp, _⟩
  · exact h
  · rw [hp] at hinf
    cases hinf

/-- The product with `10` is finite for every finite value of magnitude below
a tenth of `2^1024 - 2^970`. -/
theorem round1_domain (s : Bool) (m : Nat) (e : Int)
    (hv : 10 * |(Float64.fin s m e).toRat| < 2 ^ (1024 : ℤ) - 2 ^ (970 : ℤ)) :
    ((Float64.fin s m e).mul (Float64.lit 10 1)).isFinite = true := by
  rw [abs_toRat_fin] at hv
  rw [lit_ten]
  exact mul_ten_finite s m e hv

/-! ## `float64`: evaluations -/

set_option maxRecDepth 100000 in
/-- The three conversions at 0 °C, 100 °C and -40 °C, fused or not. -/
theorem conversions_at_reference_points (fused : Bool) :
    (round1 (Float64.lit 0 1) = Float64.lit 0 1 ∧
      round1 (Float64.mulAdd fused (Float64.lit 0 1) (Float64.lit 18 10) (Float64.lit 32 1)) =
        Float64.lit 32 1 ∧
      round1 (Float64.add (Float64.lit 0 1) (Float64.lit 273 1)) = Float64.lit 273 1) ∧
    (round1 (Float64.lit 100 1) = Float64.lit 100 1 ∧
      round1 (Float64.mulAdd fused (Float64.lit 100 1) (Float64.lit 18 10) (Float64.lit 32 1)) =
        Float64.lit 212 1 ∧
      round1 (Float64.add (Float64.lit 100 1) (Float64.lit 273 1)) = Float64.lit 373 1) ∧
    (round1 (Float64.lit 40 1).neg = (Float64.lit 40 1).neg ∧
      round1 (Float64.mulAdd fused (Float64.lit 40 1).neg (Float64.lit 18 10)
        (Float64.lit 32 1)) = (Float64.lit 40 1).neg ∧
      round1 (Float64.add (Float64.lit 40 1).neg (Float64.lit 273 1)) = Float64.lit 233 1) := by
  cases fused <;> decide

set_option maxRecDepth 100000 in
/-- The product of 1e308 with `10` is out of range. -/
theorem round1_overflow : round1 (Float64.lit (10 ^ 308) 1) = .inf false := by decide

/-! ## Claims -/

/-- C1: the input validator `cepRe.MatchString` (one pattern for the gateway
and the pipeline) accepts a string if and only if it consists of exactly eight
runes, each an ASCII digit `'0'..'9'`.  "01001000" and "00000000" are valid;
"abc", the empty string, seven digits, nine digits, "01001-000", eight digits
followed by a newline and eight Arabic-Indic digits are invalid. -/
theorem validator_accepts_exactly_eight_ascii_digits :
    (∀ s : String, Regexp.MatchString cepRe s = true ↔
      s.length = 8 ∧ s.data.all isAsciiDigit = true) ∧
    Regexp.MatchString cepRe "01001000" = true ∧
    Regexp.MatchString cepRe "00000000" = true ∧
    Regexp.MatchString cepRe "abc" = false ∧
    Regexp.MatchString cepRe "" = false ∧
    Regexp.MatchString cepRe "0100100" = false ∧
    Regexp.MatchString cepRe "010010000" = false ∧
    Regexp.MatchString cepRe "01001-000" = false ∧
    Regexp.MatchString cepRe "01001000\n" = false ∧
    Regexp.MatchString cepRe "٠١٢٣٤٥٦٧" = false :=
  ⟨matchString_cepRe, by decide, by decide, by decide, by decide, by decide, by decide,
    by decide, by decide, by decide⟩

/-- C2: for every POST request to the pipeline handler and every behaviour of
the resolvers, the response follows the status mapping: 422 with "invalid
zipcode" when the body does not decode or the cep is invalid; 404 with "can
not find zipcode" when the geocode resolver returns `errNotFound`; 502 when
the geocode resolver returns any other error or the weather resolver returns
an error; 200 exactly when the request is valid and both resolvers succeed;
and no other status occurs. -/
theorem pipeline_status_mapping (env : Env) (r : Request) (hpost : r.Method = "POST") :
    (((∃ msg, env.decodeCepRequest r.Body = .error msg) ∨
        (∃ req, env.decodeCepRequest r.Body = .ok req ∧
          Regexp.MatchString cepRe req.CEP = false)) →
      (ServiceB.handleCEP env r).1 = writeJSON 422 (.message "invalid zipcode")) ∧
    (∀ req, env.decodeCepRequest r.Body = .ok req →
      Regexp.MatchString cepRe req.CEP = true →
      ((ServiceB.lookupCity env req.CEP).1.2.2 = some .errNotFound →
        (ServiceB.handleCEP env r).1 = writeJSON 404 (.message "can not find zipcode")) ∧
      (∀ err, (ServiceB.lookupCity env req.CEP).1.2.2 = some err → err ≠ .errNotFound →
        (ServiceB.handleCEP env r).1 = writeJSON 502 (.message "zipcode lookup failed")) ∧
      ((ServiceB.lookupCity env req.CEP).1.2.2 = none →
        (ServiceB.lookupTempC env (ServiceB.lookupCity env req.CEP).1.1
            (ServiceB.lookupCity env req.CEP).1.2.1).1.2 ≠ none →
        (ServiceB.handleCEP env r).1 = writeJSON 502 (.message "weather lookup failed")) ∧
      ((ServiceB.lookupCity env req.CEP).1.2.2 = none →
        (ServiceB.lookupTempC env (ServiceB.lookupCity env req.CEP).1.1
            (ServiceB.lookupCity env req.CEP).1.2.1).1.2 = none →
        (ServiceB.handleCEP env r).1.StatusCode = 200)) ∧
    ((ServiceB.handleCEP env r).1.StatusCode = 200 ∨
      (ServiceB.handleCEP env r).1.StatusCode = 404 ∨
      (ServiceB.handleCEP env r).1.StatusCode = 422 ∨
      (ServiceB.handleCEP env r).1.StatusCode = 502) ∧
    ((ServiceB.handleCEP env r).1.StatusCode = 200 ↔
      ∃ req, env.decodeCepRequest r.Body = .ok req ∧
        Regexp.MatchString cepRe req.CEP = true ∧
        (ServiceB.lookupCity env req.CEP).1.2.2 = none ∧
        (ServiceB.lookupTempC env (ServiceB.lookupCity env req.CEP).1.1
            (ServiceB.lookupCity env req.CEP).1.2.1).1.2 = none) := by
  cases hdec : env.decodeCepRequest r.Body with
  | error msg =>
    have h := pipeline_undecodable env r msg hpost hdec
    simp [h, writeJSON]
  | ok req =>
    cases hv : Regexp.MatchString cepRe req.CEP with
    | false =>
      have h := pipeline_invalid env r req hpost hdec hv
      simp [h, hv, writeJSON]
    | true =>
      rcases hgeo : ServiceB.lookupCity env req.CEP with ⟨⟨city, uf, err⟩, tr⟩
      cases err with
      | some e =>
        have h := pipeline_geocode_error env r req city uf e tr hpost hdec hv hgeo
        by_cases he : e = .errNotFound <;> simp [h, he, hv, hgeo, writeJSON]
      | none =>
        rcases hw : ServiceB.lookupTempC env city uf with ⟨⟨t, werr⟩, tr2⟩
        cases werr with
        | some e =>
          have h := pipeline_weather_error env r req city uf tr tr2 t e hpost hdec hv hgeo hw
          simp [h, hv, hgeo, hw, writeJSON]
        | none =>
          have h := pipeline_success env r req city uf tr tr2 t hpost hdec hv hgeo hw
          simp [h, hv, hgeo, hw, writeJSON]

/-- C2, witness: cep "00000000" with a geocoder reporting not-found gives
status 404 and the message "can not find zipcode". -/
theorem pipeline_status_mapping_witness :
    (Scenario.post "00000000").Method = "POST" ∧
    (ServiceB.handleCEP Scenario.unknownCep (Scenario.post "00000000")).1 =
      writeJSON 404 (.message "can not find zipcode") ∧
    (ServiceB.handleCEP Scenario.unknownCep (Scenario.post "00000000")).1.StatusCode = 404 :=
  have h := (pipeline_status_mapping Scenario.unknownCep (Scenario.post "00000000") rfl).2.1
    { CEP := "00000000" } (by rfl) (by decide)
  ⟨rfl, h.1 (by decide), by rw [h.1 (by decide)]; rfl⟩

/-- C4: on every request for which the geocode resolver returns an error
(`errNotFound` or any other), the pipeline handler does not call the weather
resolver (no weather span is started and no request goes to the weather
service), retries nothing (the trace is that of the single geocode call, with
its single outbound request) and answers with a message only, never with a
city or a temperature. -/
theorem geocode_error_short_circuits (env : Env) (r : Request) (req : cepRequest)
    (err : GoError) (hpost : r.Method = "POST")
    (hdec : env.decodeCepRequest r.Body = .ok req)
    (hok : Regexp.MatchString cepRe req.CEP = true)
    (hgeo : (ServiceB.lookupCity env req.CEP).1.2.2 = some err) :
    spansStarted "weatherapi.current" (ServiceB.handleCEP env r).2 = 0 ∧
    (ServiceB.handleCEP env r).2 = (ServiceB.lookupCity env req.CEP).2 ∧
    spansStarted "viacep.lookup" (ServiceB.handleCEP env r).2 = 1 ∧
    outboundRequests (ServiceB.handleCEP env r).2 = [ServiceB.viaCEPRequest req.CEP] ∧
    outboundCalls (ServiceB.handleCEP env r).2 = 1 ∧
    (∃ m, (ServiceB.handleCEP env r).1.Body = .json (.message m)) ∧
    (err = .errNotFound → (ServiceB.handleCEP env r).1.StatusCode = 404) := by
  rcases hcity : ServiceB.lookupCity env req.CEP with ⟨⟨city, uf, e⟩, tr⟩
  rw [hcity] at hgeo
  simp only at hgeo
  subst hgeo
  have h := pipeline_geocode_error env r req city uf err tr hpost hdec hok hcity
  have ht := lookupCity_trace env req.CEP
  rw [hcity] at ht
  simp only at ht
  obtain ⟨h1, h2, _, _, h5⟩ := ht
  rw [h]
  refine ⟨h5, rfl, h2, h1, by simp [outboundCalls, h1], ?_, ?_⟩
  · by_cases he : err = .errNotFound
    · exact ⟨"can not find zipcode", by simp [he, writeJSON]⟩
    · exact ⟨"zipcode lookup failed", by simp [he, writeJSON]⟩
  · intro he
    simp [he, writeJSON]

/-- C4, witness: cep "00000000" with a geocoder reporting not-found. -/
theorem geocode_error_short_circuits_witness :
    spansStarted "weatherapi.current"
      (ServiceB.handleCEP Scenario.unknownCep (Scenario.post "00000000")).2 = 0 ∧
    outboundCalls (ServiceB.handleCEP Scenario.unknownCep (Scenario.post "00000000")).2 = 1 ∧
    (ServiceB.handleCEP Scenario.unknownCep (Scenario.post "00000000")).1.StatusCode = 404 :=
  have h := geocode_error_short_circuits Scenario.unknownCep (Scenario.post "00000000")
    { CEP := "00000000" } .errNotFound rfl (by rfl) (by decide) (by decide)
  ⟨h.1, h.2.2.2.2.1, h.2.2.2.2.2.2 rfl⟩

/-- C5: for every POST request whose body does not decode or whose cep the
validator rejects, the gateway handler and the pipeline handler both answer
422 with the message "invalid zipcode" and do nothing else: their trace is
empty, so no outbound call is made.  The response is the same in both
cases. -/
theorem invalid_input_rejected_without_outbound_call (env : Env) (r : Request)
    (hpost : r.Method = "POST")
    (hbad : (∃ msg, env.decodeCepRequest r.Body = .error msg) ∨
      (∃ req, env.decodeCepRequest r.Body = .ok req ∧
        Regexp.MatchString cepRe req.CEP = false)) :
    ServiceA.handleCEP env r = (writeJSON 422 (.message "invalid zipcode"), []) ∧
    ServiceB.handleCEP env r = (writeJSON 422 (.message "invalid zipcode"), []) ∧
    (ServiceA.handleCEP env r).1.StatusCode = 422 ∧
    (ServiceB.handleCEP env r).1.StatusCode = 422 ∧
    outboundCalls (ServiceA.handleCEP env r).2 = 0 ∧
    outboundCalls (ServiceB.handleCEP env r).2 = 0 := by
  have hA : ServiceA.handleCEP env r = (writeJSON 422 (.message "invalid zipcode"), []) := by
    rcases hbad with ⟨msg, hdec⟩ | ⟨req, hdec, hv⟩
    · simp [ServiceA.handleCEP, hpost, hdec]
    · simp [ServiceA.handleCEP, hpost, hdec, hv]
  have hB : ServiceB.handleCEP env r = (writeJSON 422 (.message "invalid zipcode"), []) := by
    rcases hbad with ⟨msg, hdec⟩ | ⟨req, hdec, hv⟩
    · exact pipeline_undecodable env r msg hpost hdec
    · exact pipeline_invalid env r req hpost hdec hv
  rw [hA, hB]
  exact ⟨rfl, rfl, rfl, rfl, rfl, rfl⟩

/-- C5, witness: the cep "abc", and a body that is not JSON, get the same
422 from both handlers. -/
theorem invalid_input_rejected_without_outbound_call_witness :
    ServiceA.handleCEP Scenario.saoPaulo (Scenario.post "abc") =
      (writeJSON 422 (.message "invalid zipcode"), []) ∧
    ServiceB.handleCEP Scenario.saoPaulo (Scenario.post "abc") =
      (writeJSON 422 (.message "invalid zipcode"), []) ∧
    ServiceA.handleCEP Scenario.saoPaulo { Method := "POST", Body := "cep=01001000" } =
      ServiceA.handleCEP Scenario.saoPaulo (Scenario.post "abc") ∧
    ServiceB.handleCEP Scenario.saoPaulo { Method := "POST", Body := "cep=01001000" } =
      ServiceB.handleCEP Scenario.saoPaulo (Scenario.post "abc") :=
  have h1 := invalid_input_rejected_without_outbound_call Scenario.saoPaulo (Scenario.post "abc")
    rfl (Or.inr ⟨{ CEP := "abc" }, by rfl, by decide⟩)
  have h2 := invalid_input_rejected_without_outbound_call Scenario.saoPaulo
    { Method := "POST", Body := "cep=01001000" } rfl (Or.inl ⟨"invalid character", by rfl⟩)
  ⟨h1.1, h1.2.1, h2.1.trans h1.1.symm, h2.2.1.trans h1.2.1.symm⟩

/-- C6, amended: for every POST request with a valid cep that is forwarded
and for which the downstream call returns a response of status `s` and body
`b`: if `s` is 101 or lies from 200 to 999, the gateway answers with status
exactly `s`, and with body exactly `b` whenever `s` allows a body (`s` is not
101, 204 or 304) or `b` is empty; a non-2xx status is relayed like any other
and not turned into a local error.  If `s` is below 100 or above 999,
`w.WriteHeader` panics and nothing is relayed.  A status from 100 to 199 other
than 101 goes out as an informational response, followed by a final 200 with
the body `b`.  In every case the only outbound call is the forwarded
request. -/
theorem gateway_relays_status_and_body (env : Env) (r : Request) (req : cepRequest)
    (resp : HttpResponse) (hpost : r.Method = "POST")
    (hdec : env.decodeCepRequest r.Body = .ok req)
    (hok : Regexp.MatchString cepRe req.CEP = true)
    (hnew : env.newRequestOk (ServiceA.svcB env ++ "/cep") = true)
    (hdo : env.clientDo (ServiceA.forwardRequest env req) = .ok resp) :
    ((resp.StatusCode = 101 ∨ (200 ≤ resp.StatusCode ∧ resp.StatusCode ≤ 999)) →
      (ServiceA.handleCEP env r).1.StatusCode = resp.StatusCode ∧
      ((resp.StatusCode ≠ 101 ∧ resp.StatusCode ≠ 204 ∧ resp.StatusCode ≠ 304) ∨
          resp.Body = "" →
        (ServiceA.handleCEP env r).1.Body = .bytes resp.Body) ∧
      panicked (ServiceA.handleCEP env r).2 = false) ∧
    ((resp.StatusCode < 100 ∨ 999 < resp.StatusCode) →
      (ServiceA.handleCEP env r).1.StatusCode = 0 ∧
      (ServiceA.handleCEP env r).1.Body = .unwritten ∧
      panicked (ServiceA.handleCEP env r).2 = true) ∧
    ((100 ≤ resp.StatusCode ∧ resp.StatusCode ≤ 199 ∧ resp.StatusCode ≠ 101) →
      (ServiceA.handleCEP env r).1.StatusCode = 200 ∧
      (ServiceA.handleCEP env r).1.Body = .bytes resp.Body ∧
      Event.informational resp.StatusCode ∈ (ServiceA.handleCEP env r).2) ∧
    outboundRequests (ServiceA.handleCEP env r).2 = [ServiceA.forwardRequest env req] := by
  have h : ServiceA.handleCEP env r =
      ((ServiceA.relay resp).1,
        [Event.spanStart "call.service-b", .clientDo (ServiceA.forwardRequest env req)] ++
          (ServiceA.relay resp).2 ++ [.spanEnd "call.service-b"]) := by
    simp [ServiceA.handleCEP, hpost, hdec, hok, hnew, hdo]
  rw [h]
  refine ⟨?_, ?_, ?_, ?_⟩
  · intro hs
    have hv : ServiceA.validWriteHeaderCode resp.StatusCode = true := by
      simp only [ServiceA.validWriteHeaderCode, decide_eq_true_eq]
      omega
    have hi : ¬ (resp.StatusCode ≤ 199 ∧ resp.StatusCode ≠ 101) := by omega
    have hrel : ServiceA.relay resp =
        ({ Header := [("Content-Type", "application/json")], StatusCode := resp.StatusCode,
           Body := .bytes (if ServiceA.bodyAllowedForStatus resp.StatusCode then resp.Body
             else "") }, []) := by
      simp [ServiceA.relay, hv, hi]
    rw [hrel]
    refine ⟨rfl, ?_, ?_⟩
    · intro hb
      rcases hb with ⟨h1, h2, h3⟩ | hb
      · have : ServiceA.bodyAllowedForStatus resp.StatusCode = true := by
          have h4 : ¬ (100 ≤ resp.StatusCode ∧ resp.StatusCode ≤ 199) := by omega
          simp [ServiceA.bodyAllowedForStatus, h4, h2, h3]
        simp [this]
      · simp [hb]
    · simp [panicked]
  · intro hs
    have hv : ServiceA.validWriteHeaderCode resp.StatusCode = false := by
      simp only [ServiceA.validWriteHeaderCode, decide_eq_false_iff_not]
      omega
    simp [ServiceA.relay, hv, panicked]
  · intro hs
    have hv : ServiceA.validWriteHeaderCode resp.StatusCode = true := by
      simp only [ServiceA.validWriteHeaderCode, decide_eq_true_eq]
      omega
    have hi : resp.StatusCode ≤ 199 ∧ resp.StatusCode ≠ 101 := ⟨hs.2.1, hs.2.2⟩
    simp [ServiceA.relay, hv, hi]
  · by_cases hv : ServiceA.validWriteHeaderCode resp.StatusCode = true
    · by_cases hi : resp.StatusCode ≤ 199 ∧ resp.StatusCode ≠ 101
      · simp [ServiceA.relay, hv, hi, outboundRequests]
      · simp [ServiceA.relay, hv, hi, outboundRequests]
    · simp [ServiceA.relay, hv, outboundRequests]

/-- C6, witness: a downstream 200 with the São Paulo body is relayed as 200
with the same body, and a downstream 404 with its message as 404 with that
message. -/
theorem gateway_relays_status_and_body_witness :
    ((ServiceA.handleCEP Scenario.saoPaulo (Scenario.post "01001000")).1.StatusCode = 200 ∧
      (ServiceA.handleCEP Scenario.saoPaulo (Scenario.post "01001000")).1.Body =
        .bytes "\x7b\"city\":\"São Paulo\",\"temp_C\":25.0,\"temp_F\":77.0,\"temp_K\":298.0\x7d") ∧
    ((ServiceA.handleCEP Scenario.pipelineNotFound (Scenario.post "00000000")).1.StatusCode = 404 ∧
      (ServiceA.handleCEP Scenario.pipelineNotFound (Scenario.post "00000000")).1.Body =
        .bytes "\x7b\"message\":\"can not find zipcode\"\x7d") :=
  have h := (gateway_relays_status_and_body Scenario.saoPaulo (Scenario.post "01001000")
    { CEP := "01001000" } { StatusCode := 200, Body := Scenario.saoPauloBody }
    rfl (by rfl) (by decide) (by rfl) (by rfl)).1 (Or.inr (by decide))
  have h2 := (gateway_relays_status_and_body Scenario.pipelineNotFound (Scenario.post "00000000")
    { CEP := "00000000" }
    { StatusCode := 404, Body := "\x7b\"message\":\"can not find zipcode\"\x7d" }
    rfl (by rfl) (by decide) (by rfl) (by rfl)).1 (Or.inr (by decide))
  ⟨⟨h.1, h.2.1 (Or.inl (by decide))⟩, ⟨h2.1, h2.2.1 (Or.inl (by decide))⟩⟩

/-- C6, counterexample: when the pipeline answers with the status line
`HTTP/1.1 099` and the body "hi", which `client.Do` returns without an error,
the gateway handler panics in `w.WriteHeader`: it relays neither the status 99
nor the body. -/
theorem gateway_panics_on_status_99 :
    Scenario.pipelineStatus99.clientDo
        (ServiceA.forwardRequest Scenario.pipelineStatus99 { CEP := "01001000" }) =
      .ok { StatusCode := 99, Body := "hi" } ∧
    (ServiceA.handleCEP Scenario.pipelineStatus99 (Scenario.post "01001000")).1.StatusCode ≠ 99 ∧
    (ServiceA.handleCEP Scenario.pipelineStatus99 (Scenario.post "01001000")).1.Body ≠
      .bytes "hi" ∧
    (ServiceA.handleCEP Scenario.pipelineStatus99 (Scenario.post "01001000")).2 =
      [.spanStart "call.service-b",
        .clientDo (ServiceA.forwardRequest Scenario.pipelineStatus99 { CEP := "01001000" }),
        .goPanic "invalid WriteHeader code %v" [.int 99],
        .spanEnd "call.service-b"] :=
  ⟨by rfl, by decide, by decide, by decide⟩

/-- C7: the geocode resolver classifies every upstream response: a status
400 or 404 gives `errNotFound`; any other status than 200 gives an error that
is not `errNotFound` and carries the status code; a 200 whose payload has the
`erro` flag set or an empty city gives `errNotFound`; a 200 with any other
payload gives the city and region of the payload, the city non-empty.  The
result is never half filled: either the error is nil and the city non-empty,
or the error is non-nil and city and region are both empty. -/
theorem lookupCity_classification (env : Env) (cep : String) :
    (∀ res, env.clientDo (ServiceB.viaCEPRequest cep) = .ok res →
      ((res.StatusCode = 400 ∨ res.StatusCode = 404) →
        (ServiceB.lookupCity env cep).1 = ("", "", some .errNotFound)) ∧
      (res.StatusCode ≠ 200 → ¬ (res.StatusCode = 400 ∨ res.StatusCode = 404) →
        (ServiceB.lookupCity env cep).1 =
          ("", "", some (.errorf "viacep status %d" [.int res.StatusCode])) ∧
        (ServiceB.lookupCity env cep).1.2.2 ≠ some .errNotFound) ∧
      (res.StatusCode = 200 → ∀ v, env.decodeViaCEP res.Body = .ok v →
        ((v.Erro = true ∨ v.Localidade = "") →
          (ServiceB.lookupCity env cep).1 = ("", "", some .errNotFound)) ∧
        (¬ (v.Erro = true ∨ v.Localidade = "") →
          (ServiceB.lookupCity env cep).1 = (v.Localidade, v.UF, none) ∧
          v.Localidade ≠ ""))) ∧
    (((ServiceB.lookupCity env cep).1.2.2 = none ∧ (ServiceB.lookupCity env cep).1.1 ≠ "") ∨
      ((ServiceB.lookupCity env cep).1.2.2 ≠ none ∧ (ServiceB.lookupCity env cep).1.1 = "" ∧
        (ServiceB.lookupCity env cep).1.2.1 = "")) := by
  cases hdo : env.clientDo (ServiceB.viaCEPRequest cep) with
  | error msg =>
    rw [lookupCity_transport env cep msg hdo]
    simp
  | ok res =>
    by_cases hs : res.StatusCode = 200
    · cases hdec : env.decodeViaCEP res.Body with
      | error msg =>
        rw [lookupCity_undecodable env cep msg res hdo hs hdec]
        simp [hs, hdec]
      | ok v =>
        by_cases hv : v.Erro = true ∨ v.Localidade = ""
        · rw [lookupCity_payload_not_found env cep res v hdo hs hdec hv]
          simp [hs, hdec, hv]
          intro hf
          rcases hv with h | h
          · rw [h] at hf; cases hf
          · exact h
        · rw [lookupCity_found env cep res v hdo hs hdec hv]
          have hne : v.Localidade ≠ "" := fun h => hv (Or.inr h)
          have hE : v.Erro = false := by
            cases hE : v.Erro
            · rfl
            · exact absurd (Or.inl hE) hv
          simp [hs, hdec, hne, hE]
    · rw [lookupCity_status env cep res hdo hs]
      by_cases h4 : res.StatusCode = 400 ∨ res.StatusCode = 404
      · simp [hs, h4]
        intro h
        rcases h4 with h4 | h4
        · exact absurd h4 h
        · exact h4
      · simp [hs, h4]
        exact ⟨fun h => h4 (Or.inl h), fun h => h4 (Or.inr h)⟩

/-- C9: when `WEATHER_API_KEY` is unset or empty, the weather resolver fails
at once for every city and region with the missing-credential error, having
made no outbound call; a pipeline request that reaches it is answered 502. -/
theorem missing_credential_fails_without_outbound_call (env : Env)
    (hkey : env.Getenv "WEATHER_API_KEY" = "") :
    (∀ city uf,
      (ServiceB.lookupTempC env city uf).1 =
        (ServiceB.zero, some (.errorf "missing WEATHER_API_KEY" [])) ∧
      outboundCalls (ServiceB.lookupTempC env city uf).2 = 0) ∧
    (∀ r req, r.Method = "POST" → env.decodeCepRequest r.Body = .ok req →
      Regexp.MatchString cepRe req.CEP = true →
      (ServiceB.lookupCity env req.CEP).1.2.2 = none →
      (ServiceB.handleCEP env r).1 = writeJSON 502 (.message "weather lookup failed") ∧
      (ServiceB.handleCEP env r).1.StatusCode = 502 ∧
      outboundRequests (ServiceB.handleCEP env r).2 = [ServiceB.viaCEPRequest req.CEP]) := by
  constructor
  · intro city uf
    rw [lookupTempC_no_key env city uf hkey]
    simp [outboundCalls, outboundRequests, weatherHead]
  · intro r req hpost hdec hok hgeo
    rcases hcity : ServiceB.lookupCity env req.CEP with ⟨⟨city, uf, e⟩, tr⟩
    rw [hcity] at hgeo
    simp only at hgeo
    subst hgeo
    have ht := (lookupCity_trace env req.CEP).1
    rw [hcity] at ht
    simp only at ht
    rw [pipeline_weather_error env r req city uf tr _ _ _ hpost hdec hok hcity
      (lookupTempC_no_key env city uf hkey)]
    refine ⟨rfl, rfl, ?_⟩
    simp only [outboundRequests] at ht ⊢
    rw [List.filterMap_append, ht]
    simp [weatherHead]

/-- C9, witness: São Paulo is found, the credential is missing, the answer
is 502 and only the geocoder was called. -/
theorem missing_credential_fails_without_outbound_call_witness :
    Scenario.noCredential.Getenv "WEATHER_API_KEY" = "" ∧
    outboundCalls (ServiceB.lookupTempC Scenario.noCredential "São Paulo" "SP").2 = 0 ∧
    (ServiceB.handleCEP Scenario.noCredential (Scenario.post "01001000")).1.StatusCode = 502 :=
  have h := missing_credential_fails_without_outbound_call Scenario.noCredential rfl
  ⟨rfl, (h.1 "São Paulo" "SP").2,
    (h.2 (Scenario.post "01001000") { CEP := "01001000" } rfl (by rfl) (by decide) (by rfl)).2.1⟩

/-- C10, at the failing inputs: the geocode resolver returns an error for a
status 500, for a status 404 and for a not-found payload, and the weather
resolver returns an error for a missing credential, each time without any
`RecordError` on its span; the span is ended all the same. -/
theorem resolver_errors_left_unrecorded :
    ((ServiceB.lookupCity Scenario.geocoderDown "01001000").1.2.2 =
        some (.errorf "viacep status %d" [.int 500]) ∧
      errorRecorded "viacep.lookup" (ServiceB.lookupCity Scenario.geocoderDown "01001000").2 = false ∧
      spansEnded "viacep.lookup" (ServiceB.lookupCity Scenario.geocoderDown "01001000").2 = 1) ∧
    ((ServiceB.lookupCity Scenario.geocoderMissing "00000000").1.2.2 = some .errNotFound ∧
      errorRecorded "viacep.lookup"
        (ServiceB.lookupCity Scenario.geocoderMissing "00000000").2 = false) ∧
    ((ServiceB.lookupCity Scenario.unknownCep "00000000").1.2.2 = some .errNotFound ∧
      errorRecorded "viacep.lookup" (ServiceB.lookupCity Scenario.unknownCep "00000000").2 = false) ∧
    ((ServiceB.lookupTempC Scenario.noCredential "São Paulo" "SP").1.2 =
        some (.errorf "missing WEATHER_API_KEY" []) ∧
      errorRecorded "weatherapi.current"
        (ServiceB.lookupTempC Scenario.noCredential "São Paulo" "SP").2 = false ∧
      spansEnded "weatherapi.current"
        (ServiceB.lookupTempC Scenario.noCredential "São Paulo" "SP").2 = 1) := by
  decide

/-- C3: for every Celsius reading `c` and city returned by the resolvers, the
pipeline handler answers 200 with the city of the geocoder, `temp_C =
round1(c)`, `temp_F = round1(c*1.8 + 32)` and `temp_K = round1(c + 273)`, each
rounded on its own (`c*1.8 + 32` being the two `float64` operations, or their
fusion where the compiler fuses them).  0 °C gives (0, 32, 273), 100 °C gives
(100, 212, 373) and -40 °C gives (-40, -40, 233), fused or not. -/
theorem pipeline_builds_weather_result (env : Env) (r : Request) (req : cepRequest)
    (city uf : String) (tr tr2 : List Event) (c : Float64)
    (hpost : r.Method = "POST") (hdec : env.decodeCepRequest r.Body = .ok req)
    (hok : Regexp.MatchString cepRe req.CEP = true)
    (hgeo : ServiceB.lookupCity env req.CEP = ((city, uf, none), tr))
    (hw : ServiceB.lookupTempC env city uf = ((c, none), tr2)) :
    (ServiceB.handleCEP env r).1 =
      writeJSON 200 (.weather
        { City := city,
          TempC := round1 c,
          TempF := round1 (Float64.mulAdd env.fusedMulAdd c (Float64.lit 18 10)
                             (Float64.lit 32 1)),
          TempK := round1 (Float64.add c (Float64.lit 273 1)) }) ∧
    Float64.mulAdd false c (Float64.lit 18 10) (Float64.lit 32 1) =
      Float64.add (Float64.mul c (Float64.lit 18 10)) (Float64.lit 32 1) ∧
    (∀ fused : Bool,
      (round1 (Float64.lit 0 1) = Float64.lit 0 1 ∧
        round1 (Float64.mulAdd fused (Float64.lit 0 1) (Float64.lit 18 10) (Float64.lit 32 1)) =
          Float64.lit 32 1 ∧
        round1 (Float64.add (Float64.lit 0 1) (Float64.lit 273 1)) = Float64.lit 273 1) ∧
      (round1 (Float64.lit 100 1) = Float64.lit 100 1 ∧
        round1 (Float64.mulAdd fused (Float64.lit 100 1) (Float64.lit 18 10) (Float64.lit 32 1)) =
          Float64.lit 212 1 ∧
        round1 (Float64.add (Float64.lit 100 1) (Float64.lit 273 1)) = Float64.lit 373 1) ∧
      (round1 (Float64.lit 40 1).neg = (Float64.lit 40 1).neg ∧
        round1 (Float64.mulAdd fused (Float64.lit 40 1).neg (Float64.lit 18 10)
          (Float64.lit 32 1)) = (Float64.lit 40 1).neg ∧
        round1 (Float64.add (Float64.lit 40 1).neg (Float64.lit 273 1)) = Float64.lit 233 1)) := by
  refine ⟨?_, ?_, ?_⟩
  · rw [pipeline_success env r req city uf tr tr2 c hpost hdec hok hgeo hw]
  · cases c <;> rfl
  · exact conversions_at_reference_points

/-- C3, witness: cep "01001000" resolving to São Paulo with a reading of
25.0 °C gives status 200 with city "São Paulo", 25.0, 77.0 and 298.0. -/
theorem pipeline_builds_weather_result_witness :
    (ServiceB.handleCEP Scenario.saoPaulo (Scenario.post "01001000")).1 =
      writeJSON 200 (.weather
        { City := "São Paulo",
          TempC := Float64.lit 25 1,
          TempF := Float64.lit 77 1,
          TempK := Float64.lit 298 1 }) ∧
    (ServiceB.handleCEP Scenario.saoPaulo (Scenario.post "01001000")).1.StatusCode = 200 :=
  have h := (pipeline_builds_weather_result Scenario.saoPaulo (Scenario.post "01001000")
    { CEP := "01001000" } "São Paulo" "SP"
    (ServiceB.lookupCity Scenario.saoPaulo "01001000").2
    (ServiceB.lookupTempC Scenario.saoPaulo "São Paulo" "SP").2
    (Float64.lit 25 1) rfl (by rfl) (by decide) (by decide) (by decide)).1
  ⟨h.trans (by decide), by rw [h]; rfl⟩

/-- C8, counterexample: the `float64` 0.44999999999999996 (significand
8106479329266892, exponent -54, the value just below the `float64` 0.45) is
rounded to 0.5, more than 0.05 away from it; 1e308 is rounded to +Inf; and
the result for 0.25, the `float64` 0.3, is not the rational 3/10. -/
theorem round1_farther_than_a_twentieth :
    round1 (.fin false 8106479329266892 (-54)) = Float64.lit 5 10 ∧
    Float64.lit 45 100 = .fin false 8106479329266893 (-54) ∧
    (1 : ℚ) / 20 < |(round1 (.fin false 8106479329266892 (-54))).toRat -
      (Float64.fin false 8106479329266892 (-54)).toRat| ∧
    round1 (Float64.lit (10 ^ 308) 1) = .inf false ∧
    (round1 (Float64.lit 25 100)).toRat ≠ 3 / 10 := by
  refine ⟨by decide, by decide, ?_, ?_, ?_⟩
  rotate_left 2
  · have h : round1 (Float64.lit 25 100) = .fin false 5404319552844595 (-54) := by decide
    rw [h, toRat_fin]
    norm_num [zpow_neg]
  · have h : round1 (.fin false 8106479329266892 (-54)) = .fin false 4503599627370496 (-53) := by
      decide
    have hd : (Float64.fin false 4503599627370496 (-53)).toRat -
        (Float64.fin false 8106479329266892 (-54)).toRat =
          225179981368525 / 4503599627370496 := by
      rw [toRat_fin, toRat_fin]
      norm_num [zpow_neg]
    rw [h, hd, abs_of_pos (by norm_num)]
    norm_num
  · exact round1_overflow

/-- C8, amended: `round1(-x) = -round1(x)` for every `float64` `x`;
`round1(NaN) = NaN` and `round1(±Inf) = ±Inf`.  For a finite `x` whose
`float64` product `x*10` is out of range, `round1(x)` is the infinity of the
sign of `x`; the product is in range whenever `10 |x| < 2^1024 - 2^970`.  For
every other finite `x` there is an integer `k`, nearest to the `float64`
product `x*10` and the one farther from zero on a tie, such that `round1(x)`
is the `float64` nearest to `k/10`, the one with the even significand when two
are as near; it is within `2^-53 |k/10|` of `k/10`, the product is within
`2^-53 |10 x| + 2^-1075` of `10 x`, and `round1(x)` differs from `x` by at most
`0.05 + 2^-51 (|x| + 1)`.  As `float64` values, 98.45 is rounded to 98.5,
-98.45 to -98.5, 0.25 to 0.3 and -0.25 to -0.3. -/
theorem round1_nearest_tenth_half_away_from_zero :
    (∀ x : Float64, round1 x.neg = (round1 x).neg) ∧
    round1 .nan = .nan ∧
    (∀ s : Bool, round1 (.inf s) = .inf s) ∧
    (∀ (s : Bool) (m : Nat) (e : Int),
      ((Float64.fin s m e).mul (Float64.lit 10 1)).isFinite = false →
      round1 (.fin s m e) = .inf s) ∧
    (∀ (s : Bool) (m : Nat) (e : Int),
      10 * |(Float64.fin s m e).toRat| < 2 ^ (1024 : ℤ) - 2 ^ (970 : ℤ) →
      ((Float64.fin s m e).mul (Float64.lit 10 1)).isFinite = true) ∧
    (∀ (s : Bool) (m : Nat) (e : Int),
      ((Float64.fin s m e).mul (Float64.lit 10 1)).isFinite = true →
      ∃ (k : ℤ) (mr : Nat) (er : Int), round1 (.fin s m e) = .fin s mr er ∧
        (round1 (.fin s m e)).isCanonical = true ∧
        |(k : ℚ) - ((Float64.fin s m e).mul (Float64.lit 10 1)).toRat| ≤ 1 / 2 ∧
        (|(k : ℚ) - ((Float64.fin s m e).mul (Float64.lit 10 1)).toRat| = 1 / 2 →
          |((Float64.fin s m e).mul (Float64.lit 10 1)).toRat| < |(k : ℚ)|) ∧
        (∀ y : Float64, y.isCanonical = true →
          |(round1 (.fin s m e)).toRat - (k : ℚ) / 10| ≤ |y.toRat - (k : ℚ) / 10|) ∧
        (∀ y : Float64, y.isCanonical = true → y.toRat ≠ (round1 (.fin s m e)).toRat →
          |y.toRat - (k : ℚ) / 10| = |(round1 (.fin s m e)).toRat - (k : ℚ) / 10| →
          mr % 2 = 0) ∧
        |(round1 (.fin s m e)).toRat - (k : ℚ) / 10| ≤ 2 ^ (-53 : ℤ) * |(k : ℚ) / 10| ∧
        |((Float64.fin s m e).mul (Float64.lit 10 1)).toRat - 10 * (Float64.fin s m e).toRat| ≤
          2 ^ (-53 : ℤ) * |10 * (Float64.fin s m e).toRat| + 2 ^ (-1075 : ℤ) ∧
        |(round1 (.fin s m e)).toRat - (Float64.fin s m e).toRat| ≤
          1 / 20 + 2 ^ (-51 : ℤ) * (|(Float64.fin s m e).toRat| + 1)) ∧
    round1 (Float64.lit 9845 100) = Float64.lit 985 10 ∧
    round1 (Float64.lit 9845 100).neg = (Float64.lit 985 10).neg ∧
    round1 (Float64.lit 25 100) = Float64.lit 3 10 ∧
    round1 (Float64.lit 25 100).neg = (Float64.lit 3 10).neg :=
  ⟨round1_neg, by decide, fun s => by cases s <;> decide, round1_overflows, round1_domain,
    round1_exact, by decide, by decide, by decide, by decide⟩

/-- C8, witness: the product of 0.25 with `10` is finite, 0.25 is rounded to
the `float64` 0.3, which no `float64` beats in nearness to `3/10`, and it is
moved by at most `0.05 + 2^-51 (0.25 + 1)`. -/
theorem round1_nearest_tenth_half_away_from_zero_witness :
    ((Float64.fin false 4503599627370496 (-54)).mul (Float64.lit 10 1)).isFinite = true ∧
    round1 (.fin false 4503599627370496 (-54)) = Float64.lit 3 10 ∧
    (∃ k : ℤ, ∀ y : Float64, y.isCanonical = true →
      |(round1 (.fin false 4503599627370496 (-54))).toRat - (k : ℚ) / 10| ≤
        |y.toRat - (k : ℚ) / 10|) ∧
    |(round1 (.fin false 4503599627370496 (-54))).toRat -
        (Float64.fin false 4503599627370496 (-54)).toRat| ≤
      1 / 20 + 2 ^ (-51 : ℤ) * (|(Float64.fin false 4503599627370496 (-54)).toRat| + 1) := by
  have hfin : ((Float64.fin false 4503599627370496 (-54)).mul
      (Float64.lit 10 1)).isFinite = true := by decide
  obtain ⟨k, _, _, _, _, _, _, hnear, _, _, _, h⟩ :=
    round1_nearest_tenth_half_away_from_zero.2.2.2.2.2.1 false 4503599627370496 (-54) hfin
  exact ⟨hfin, by decide, ⟨k, hnear⟩, h⟩

end PosOtel
